import Mathlib

/-!
# Verification development for `main.cpp` (vulkan-ray-tracing)

A shallow embedding of the GPU provisioning and staged-transfer code of
`src/main.cpp`: the memory-type resolver `getMemoryTypeIndex`, the command
buffer helpers `getCommandBuffer` / `flushCommandBuffer`, the uploader
`create_vertex_buffers`, the provisioner `init_vulkan` and `prepare_vulkan`.

Machine integers are natural numbers with explicit truncation where the
source converts; native Vulkan calls are events appended to a trace, their
replies are given by an arbitrary environment.
-/

set_option linter.unusedVariables false

namespace VulkanRayTracing

/-! ## Constants of the Vulkan headers and of `main.cpp` -/

/-- A `VkResult` status: zero is success, positive values are non-error
statuses such as `VK_TIMEOUT`, negative values are errors. -/
abbrev VkResult := Int

def VK_SUCCESS : VkResult := 0
def VK_TIMEOUT : VkResult := 2
def VK_INCOMPLETE : VkResult := 5
def VK_ERROR_OUT_OF_DEVICE_MEMORY : VkResult := -2
def VK_ERROR_INITIALIZATION_FAILED : VkResult := -3

def VK_NULL_HANDLE : Nat := 0

/-- The length of the `memoryTypes` array of `VkPhysicalDeviceMemoryProperties`. -/
def VK_MAX_MEMORY_TYPES : Nat := 32

def VK_MEMORY_PROPERTY_DEVICE_LOCAL_BIT : Nat := 0x1
def VK_MEMORY_PROPERTY_HOST_VISIBLE_BIT : Nat := 0x2
def VK_MEMORY_PROPERTY_HOST_COHERENT_BIT : Nat := 0x4

def VK_BUFFER_USAGE_TRANSFER_SRC_BIT : Nat := 0x1
def VK_BUFFER_USAGE_TRANSFER_DST_BIT : Nat := 0x2
def VK_BUFFER_USAGE_INDEX_BUFFER_BIT : Nat := 0x40
def VK_BUFFER_USAGE_VERTEX_BUFFER_BIT : Nat := 0x80

def VK_QUEUE_GRAPHICS_BIT : Nat := 0x1

def VK_FORMAT_R32G32B32_SFLOAT : Nat := 106
def VK_INDEX_TYPE_UINT32 : Nat := 1
def VK_GEOMETRY_TYPE_TRIANGLES_KHR : Nat := 0
def VK_GEOMETRY_OPAQUE_BIT_KHR : Nat := 0x1
def VK_ACCELERATION_STRUCTURE_TYPE_TOP_LEVEL_KHR : Nat := 0
def VK_BUILD_ACCELERATION_STRUCTURE_PREFER_FAST_TRACE_BIT_KHR : Nat := 0x4
def VK_ACCELERATION_STRUCTURE_BUILD_TYPE_DEVICE_KHR : Nat := 1

def VK_COMMAND_BUFFER_LEVEL_PRIMARY : Nat := 0

/-- The macro `DEFAULT_FENCE_TIMEOUT` of main.cpp, in nanoseconds. -/
def DEFAULT_FENCE_TIMEOUT : Nat := 100000000000

/-- The constant `NO_QUEUE_FAMILY = 0xffffffff` of main.cpp. -/
def NO_QUEUE_FAMILY : Nat := 0xffffffff

/-- The largest value of the C++ type `int` on the supported platforms. -/
def INT_MAX : Nat := 2147483647

/-- The modulus of `uint32_t` arithmetic. -/
def UINT32_MODULUS : Nat := 2 ^ 32

/-- The value of `sizeof(Vertex)`: two arrays of three 32-bit floats. -/
def sizeof_Vertex : Nat := 24

/-! ## Data model -/

structure VkMemoryType where
  propertyFlags : Nat
  heapIndex : Nat
  deriving DecidableEq, Repr

/-- The memory-type table of a physical device. `memoryTypes` is the array of
`VK_MAX_MEMORY_TYPES` entries, read by position; the code only reads the
positions below `memoryTypeCount`. -/
structure VkPhysicalDeviceMemoryProperties where
  memoryTypeCount : Nat
  memoryTypes : Nat → VkMemoryType

structure VkQueueFamilyProperties where
  queueFlags : Nat
  queueCount : Nat
  deriving DecidableEq, Repr

structure VkMemoryRequirements where
  size : Nat
  alignment : Nat
  memoryTypeBits : Nat
  deriving DecidableEq, Repr

/-- The `struct buffer` of main.cpp: a memory handle and a buffer handle. -/
structure buffer where
  mem : Nat
  buf : Nat
  deriving DecidableEq, Repr

structure VkBufferCopy where
  srcOffset : Nat
  dstOffset : Nat
  size : Nat
  deriving DecidableEq, Repr

structure VkAccelerationStructureGeometryTrianglesDataKHR where
  vertexFormat : Nat
  vertexData : Nat
  vertexStride : Nat
  maxVertex : Nat
  indexType : Nat
  indexData : Nat
  transformData : Nat
  deriving DecidableEq, Repr

structure VkAccelerationStructureGeometryKHR where
  geometryType : Nat
  triangles : VkAccelerationStructureGeometryTrianglesDataKHR
  flags : Nat
  deriving DecidableEq, Repr

structure VkAccelerationStructureBuildGeometryInfoKHR where
  type : Nat
  flags : Nat
  mode : Nat
  srcAccelerationStructure : Nat
  dstAccelerationStructure : Nat
  geometryCount : Nat
  pGeometries : List VkAccelerationStructureGeometryKHR
  ppGeometries : Nat
  scratchData : Nat
  deriving DecidableEq, Repr

structure VkDeviceQueueCreateInfo where
  flags : Nat
  queueFamilyIndex : Nat
  queueCount : Nat
  pQueuePriorities : List Rat
  deriving DecidableEq, Repr

/-- The device extensions named in `create_device`. -/
inductive DeviceExtension where
  | VK_KHR_SWAPCHAIN_EXTENSION_NAME
  | VK_KHR_ACCELERATION_STRUCTURE_EXTENSION_NAME
  | VK_KHR_RAY_TRACING_PIPELINE_EXTENSION_NAME
  | VK_KHR_RAY_QUERY_EXTENSION_NAME
  deriving DecidableEq, Repr

/-- The calls main.cpp makes across the driver boundary, with the arguments it
passes. `memcpy` is the host copy into a mapped allocation; its second
argument is the bytes copied. -/
inductive Call where
  | vkCreateInstance
  | vkEnumeratePhysicalDevices (capacity : Option Nat)
  | vkCreateDevice (physical_device : Nat) (queues : List VkDeviceQueueCreateInfo)
      (extensions : List DeviceExtension)
  | vkGetDeviceQueue (device queueFamilyIndex queueIndex : Nat)
  | vkCreateCommandPool (flags queueFamilyIndex : Nat)
  | vkCreateBuffer (size usage : Nat)
  | vkGetBufferMemoryRequirements (buf : Nat)
  | vkAllocateMemory (allocationSize memoryTypeIndex : Nat)
  | vkMapMemory (mem offset size : Nat)
  | memcpy (dst : Nat) (bytes : List Nat)
  | vkUnmapMemory (mem : Nat)
  | vkBindBufferMemory (buf mem offset : Nat)
  | vkAllocateCommandBuffers (commandPool level count : Nat)
  | vkBeginCommandBuffer (commandBuffer flags : Nat)
  | vkCmdCopyBuffer (commandBuffer src dst : Nat) (regions : List VkBufferCopy)
  | vkEndCommandBuffer (commandBuffer : Nat)
  | vkCreateFence (flags : Nat)
  | vkQueueSubmit (queue : Nat) (commandBuffers : List Nat) (fence : Nat)
  | vkWaitForFences (fences : List Nat) (waitAll : Bool) (timeout : Nat)
  | vkDestroyFence (fence : Nat)
  | vkFreeCommandBuffers (commandPool : Nat) (commandBuffers : List Nat)
  | vkDestroyBuffer (buf : Nat)
  | vkFreeMemory (mem : Nat)
  | vkGetBufferDeviceAddress (buf : Nat)
  | vkGetInstanceProcAddr (name : String)
  | getAccelerationStructureBuildSizes (buildType : Nat)
      (buildInfo : VkAccelerationStructureBuildGeometryInfoKHR)
      (maxPrimitiveCounts : List Nat)
  deriving DecidableEq, Repr

/-- What the driver hands back from one call: the status (meaningful for the
calls that return a `VkResult`), the handle, pointer or address written to the
out-parameter or returned, and the memory requirements written by
`vkGetBufferMemoryRequirements`. -/
structure Reply where
  result : VkResult
  handle : Nat
  memoryRequirements : VkMemoryRequirements
  deriving DecidableEq, Repr

/-- One entry of the trace: a call and the reply it received. -/
structure Event where
  call : Call
  reply : Reply
  deriving DecidableEq, Repr

/-- The environment of a run: the reply of the driver to the n-th call made
(the program is deterministic, so within one run a reply that depends on the
history is a reply that depends on the position), the tables the driver
reports, the size of a pointer on the platform, and the indeterminate content
of entry 0 of the local array `physical_devices` of `choose_physical_device`
before anything is written to it. -/
structure Env where
  reply : Nat → Reply
  sizeof_pointer : Nat
  physical_devices : List Nat
  indeterminate_physical_device : Nat
  memory_properties : VkPhysicalDeviceMemoryProperties
  queue_families : List VkQueueFamilyProperties

/-- The global variables of main.cpp together with the trace of calls made. -/
structure World where
  trace : List Event
  vk_instance : Nat
  physical_device : Nat
  preferred_queue_family : Nat
  device : Nat
  memory_properties : VkPhysicalDeviceMemoryProperties
  queue : Nat
  command_pool : Nat
  be_noisy : Bool
  vertex_buffer : buffer
  index_buffer : buffer

/-- The ways a run stops without returning. -/
inductive Fatal where
  | exit_failure
  | uncaught_throw
  | assert_failed
  deriving DecidableEq, Repr

/-- The outcome of running a piece of the program from a world. -/
inductive Res (α : Type) where
  | ok (value : α) (w : World)
  | fatal (f : Fatal) (w : World)

/-- The world in which an outcome leaves the program. -/
def Res.world {α : Type} : Res α → World
  | .ok _ w => w
  | .fatal _ w => w

/-- Whether the outcome is a normal return. -/
def Res.returned {α : Type} : Res α → Bool
  | .ok _ _ => true
  | .fatal _ _ => false

/-- A piece of the program: a function of the environment and the world. -/
def M (α : Type) : Type := Env → World → Res α

def M.pure {α : Type} (a : α) : M α := fun _ w => .ok a w

def M.bind {α β : Type} (m : M α) (f : α → M β) : M β := fun env w =>
  match m env w with
  | .ok a w1 => f a env w1
  | .fatal e w1 => .fatal e w1

instance : Monad M where
  pure := M.pure
  bind := M.bind

def get_env : M Env := fun env w => .ok env w

def get_world : M World := fun _ w => .ok w w

def modify_world (f : World → World) : M Unit := fun _ w => .ok () (f w)

/-- Stop the run: `exit`, an uncaught `throw`, or a failed `assert`. -/
def stop {α : Type} (f : Fatal) : M α := fun _ w => .fatal f w

/-- Make one call across the driver boundary: the reply is the one the
environment gives for this position of the trace, and the event is logged. -/
def native (c : Call) : M Reply := fun env w =>
  let r := env.reply w.trace.length
  .ok r { w with trace := w.trace ++ [⟨c, r⟩] }

/-- The macro `VK_CHECK(f)`: evaluate `f`; when its status is not `VK_SUCCESS`
the macro evaluates the expression `f` once more inside
`vkresult_name_map.count(f)`, prints, and calls `exit(EXIT_FAILURE)`. -/
def VK_CHECK (f : M Reply) : M Reply := do
  let result ← f
  if result.result ≠ VK_SUCCESS then
    let _ ← f
    stop Fatal.exit_failure
  else
    pure result

/-! ## Memory Type Resolver -/

/-- The loop of `getMemoryTypeIndex` from index `i` with `remaining` iterations
left (`remaining = memoryTypeCount - i`). The literal `1 << i` is converted to
`uint32_t` for the `&`. -/
def getMemoryTypeIndex_loop (memory_properties : VkPhysicalDeviceMemoryProperties)
    (type_bits properties : Nat) : (remaining : Nat) → (i : Nat) → Except Fatal Nat
  | 0, _ => .error Fatal.uncaught_throw
  | remaining + 1, i =>
    if type_bits &&& ((1 <<< i) % UINT32_MODULUS) ≠ 0 then
      if (memory_properties.memoryTypes i).propertyFlags &&& properties = properties then
        .ok i
      else getMemoryTypeIndex_loop memory_properties type_bits properties remaining (i + 1)
    else getMemoryTypeIndex_loop memory_properties type_bits properties remaining (i + 1)

/-- The function `getMemoryTypeIndex` of main.cpp over the table it reads from
the global `memory_properties`; the `throw` is the error outcome. -/
def getMemoryTypeIndex (memory_properties : VkPhysicalDeviceMemoryProperties)
    (type_bits properties : Nat) : Except Fatal Nat :=
  getMemoryTypeIndex_loop memory_properties type_bits properties
    memory_properties.memoryTypeCount 0

/-- The call of `getMemoryTypeIndex` inside the program: it reads the global
`memory_properties`, and its `throw` is not caught by any caller. -/
def getMemoryTypeIndexM (type_bits properties : Nat) : M Nat := fun _ w =>
  match getMemoryTypeIndex w.memory_properties type_bits properties with
  | .ok i => .ok i w
  | .error f => .fatal f w

/-- Specification side: bit `i` of the mask is set and the flags of entry
`i` contain every required flag. -/
def MemoryTypeMatches (memory_properties : VkPhysicalDeviceMemoryProperties)
    (type_bits properties i : Nat) : Prop :=
  type_bits.testBit i = true ∧
    ∀ b : Nat, properties.testBit b = true →
      (memory_properties.memoryTypes i).propertyFlags.testBit b = true


/-! ## Command Buffer Executor -/

/-- The function `getCommandBuffer` of main.cpp: one primary command buffer
from the global pool, opened for recording when `begin` is set. -/
def getCommandBuffer (begin : Bool) : M Nat := do
  let w ← get_world
  let r ← VK_CHECK (native (.vkAllocateCommandBuffers w.command_pool VK_COMMAND_BUFFER_LEVEL_PRIMARY 1))
  let cmdBuffer := r.handle
  if begin then
    let _ ← VK_CHECK (native (.vkBeginCommandBuffer cmdBuffer 0))
    pure cmdBuffer
  else
    pure cmdBuffer

/-- The function `flushCommandBuffer` of main.cpp, with its `assert` compiled
in. -/
def flushCommandBuffer (commandBuffer : Nat) : M Unit := do
  if commandBuffer = VK_NULL_HANDLE then
    stop Fatal.assert_failed
  else
    let w ← get_world
    let _ ← VK_CHECK (native (.vkEndCommandBuffer commandBuffer))
    let r ← VK_CHECK (native (.vkCreateFence 0))
    let fence := r.handle
    let _ ← VK_CHECK (native (.vkQueueSubmit w.queue [commandBuffer] fence))
    let _ ← VK_CHECK (native (.vkWaitForFences [fence] true DEFAULT_FENCE_TIMEOUT))
    let _ ← native (.vkDestroyFence fence)
    let _ ← native (.vkFreeCommandBuffers w.command_pool [commandBuffer])
    pure ()

/-! ## Staged Buffer Uploader -/

/-- The function `create_vertex_buffers` of main.cpp. Its parameters `vertices`
and `indices` are pointers (here: the bytes they point to), so every
`sizeof(vertices)` and `sizeof(indices)` in its body is the size of a pointer. -/
def create_vertex_buffers (vertices : List Nat) (verticesSize : Nat)
    (indices : List Nat) (indicesSize : Nat) : M Unit := do
  let env ← get_env
  let sizeof_vertices := env.sizeof_pointer
  let sizeof_indices := env.sizeof_pointer
  -- staging buffer for the vertices
  let r ← VK_CHECK (native (.vkCreateBuffer sizeof_vertices VK_BUFFER_USAGE_TRANSFER_SRC_BIT))
  let vertex_staging_buf := r.handle
  let r ← native (.vkGetBufferMemoryRequirements vertex_staging_buf)
  let memory_req := r.memoryRequirements
  let allocationSize := memory_req.size
  let memoryTypeIndex ← getMemoryTypeIndexM memory_req.memoryTypeBits
    (VK_MEMORY_PROPERTY_HOST_VISIBLE_BIT ||| VK_MEMORY_PROPERTY_HOST_COHERENT_BIT)
  let r ← VK_CHECK (native (.vkAllocateMemory allocationSize memoryTypeIndex))
  let vertex_staging_mem := r.handle
  let r ← VK_CHECK (native (.vkMapMemory vertex_staging_mem 0 allocationSize))
  let mapped := r.handle
  let _ ← native (.memcpy mapped (vertices.take sizeof_vertices))
  let _ ← native (.vkUnmapMemory vertex_staging_mem)
  let _ ← VK_CHECK (native (.vkBindBufferMemory vertex_staging_buf vertex_staging_mem 0))
  -- staging buffer for the indices
  let r ← VK_CHECK (native (.vkCreateBuffer sizeof_indices VK_BUFFER_USAGE_TRANSFER_SRC_BIT))
  let index_staging_buf := r.handle
  let r ← native (.vkGetBufferMemoryRequirements index_staging_buf)
  let memory_req := r.memoryRequirements
  let allocationSize := memory_req.size
  let memoryTypeIndex ← getMemoryTypeIndexM memory_req.memoryTypeBits
    (VK_MEMORY_PROPERTY_HOST_VISIBLE_BIT ||| VK_MEMORY_PROPERTY_HOST_COHERENT_BIT)
  let r ← VK_CHECK (native (.vkAllocateMemory allocationSize memoryTypeIndex))
  let index_staging_mem := r.handle
  let r ← VK_CHECK (native (.vkMapMemory index_staging_mem 0 allocationSize))
  let mapped := r.handle
  let _ ← native (.memcpy mapped (indices.take sizeof_indices))
  let _ ← native (.vkUnmapMemory index_staging_mem)
  let _ ← VK_CHECK (native (.vkBindBufferMemory index_staging_buf index_staging_mem 0))
  -- resident buffer for the vertices
  let r ← VK_CHECK (native (.vkCreateBuffer sizeof_vertices
    (VK_BUFFER_USAGE_VERTEX_BUFFER_BIT ||| VK_BUFFER_USAGE_TRANSFER_DST_BIT)))
  let vertex_buffer_buf := r.handle
  modify_world (fun w => { w with vertex_buffer := { w.vertex_buffer with buf := vertex_buffer_buf } })
  let r ← native (.vkGetBufferMemoryRequirements vertex_buffer_buf)
  let memory_req := r.memoryRequirements
  let allocationSize := memory_req.size
  let memoryTypeIndex ← getMemoryTypeIndexM memory_req.memoryTypeBits
    VK_MEMORY_PROPERTY_DEVICE_LOCAL_BIT
  let r ← VK_CHECK (native (.vkAllocateMemory allocationSize memoryTypeIndex))
  let vertex_buffer_mem := r.handle
  modify_world (fun w => { w with vertex_buffer := { w.vertex_buffer with mem := vertex_buffer_mem } })
  let _ ← VK_CHECK (native (.vkBindBufferMemory vertex_buffer_buf vertex_buffer_mem 0))
  -- resident buffer for the indices
  let r ← VK_CHECK (native (.vkCreateBuffer sizeof_indices
    (VK_BUFFER_USAGE_INDEX_BUFFER_BIT ||| VK_BUFFER_USAGE_TRANSFER_DST_BIT)))
  let index_buffer_buf := r.handle
  modify_world (fun w => { w with index_buffer := { w.index_buffer with buf := index_buffer_buf } })
  let r ← native (.vkGetBufferMemoryRequirements index_buffer_buf)
  let memory_req := r.memoryRequirements
  let allocationSize := memory_req.size
  let memoryTypeIndex ← getMemoryTypeIndexM memory_req.memoryTypeBits
    VK_MEMORY_PROPERTY_DEVICE_LOCAL_BIT
  let r ← VK_CHECK (native (.vkAllocateMemory allocationSize memoryTypeIndex))
  let index_buffer_mem := r.handle
  modify_world (fun w => { w with index_buffer := { w.index_buffer with mem := index_buffer_mem } })
  let _ ← VK_CHECK (native (.vkBindBufferMemory index_buffer_buf index_buffer_mem 0))
  -- copy from staging to the resident buffers
  let commands ← getCommandBuffer true
  let _ ← native (.vkCmdCopyBuffer commands vertex_staging_buf vertex_buffer_buf
    [{ srcOffset := 0, dstOffset := 0, size := sizeof_vertices }])
  let _ ← native (.vkCmdCopyBuffer commands index_staging_buf index_buffer_buf
    [{ srcOffset := 0, dstOffset := 0, size := sizeof_indices }])
  flushCommandBuffer commands
  let _ ← native (.vkDestroyBuffer vertex_staging_buf)
  let _ ← native (.vkDestroyBuffer index_staging_buf)
  let _ ← native (.vkFreeMemory vertex_staging_mem)
  let _ ← native (.vkFreeMemory index_staging_mem)
  pure ()


/-! ## Device Provisioner -/

/-- The function `print_implementation_information` of main.cpp: it only
enumerates instance extensions and prints them, which leaves the world as it is. -/
def print_implementation_information : M Unit := pure ()

/-- The function `print_device_information` of main.cpp: it only queries and
prints, which leaves the world as it is. -/
def print_device_information (physical_device : Nat) : M Unit := pure ()

/-- The function `create_instance` of main.cpp; the extension and layer names
it collects are not part of the model. -/
def create_instance : M Unit := do
  let r ← VK_CHECK (native .vkCreateInstance)
  modify_world (fun w => { w with vk_instance := r.handle })

/-- The function `choose_physical_device` of main.cpp. The first enumeration
writes the number of devices to `gpu_count`, the second fills at most
`min(32, gpu_count)` entries of the array, and entry 0 is selected. When no
device is enumerated nothing is written to the array, and the entry read is the
indeterminate content the array had. -/
def choose_physical_device : M Unit := do
  let env ← get_env
  let _ ← VK_CHECK (native (.vkEnumeratePhysicalDevices none))
  let gpu_count := env.physical_devices.length % UINT32_MODULUS
  let gpu_count := min 32 gpu_count
  let _ ← VK_CHECK (native (.vkEnumeratePhysicalDevices (some gpu_count)))
  let physical_devices := env.physical_devices.take gpu_count
  modify_world (fun w => { w with
    physical_device := physical_devices.getD 0 env.indeterminate_physical_device })

/-- The function `create_device` of main.cpp. -/
def create_device : M Unit := do
  let w ← get_world
  let extensions : List DeviceExtension :=
    [DeviceExtension.VK_KHR_SWAPCHAIN_EXTENSION_NAME] ++
      [DeviceExtension.VK_KHR_ACCELERATION_STRUCTURE_EXTENSION_NAME,
       DeviceExtension.VK_KHR_RAY_TRACING_PIPELINE_EXTENSION_NAME,
       DeviceExtension.VK_KHR_RAY_QUERY_EXTENSION_NAME]
  let queue_priorities : List Rat := [1]
  let create_queues : List VkDeviceQueueCreateInfo :=
    [{ flags := 0, queueFamilyIndex := w.preferred_queue_family, queueCount := 1,
       pQueuePriorities := queue_priorities }]
  let r ← VK_CHECK (native (.vkCreateDevice w.physical_device create_queues extensions))
  let device := r.handle
  modify_world (fun w => { w with device := device })
  let r ← native (.vkGetDeviceQueue device w.preferred_queue_family 0)
  modify_world (fun w => { w with queue := r.handle })
  let r ← VK_CHECK (native (.vkCreateCommandPool 0 w.preferred_queue_family))
  modify_world (fun w => { w with command_pool := r.handle })

/-- The loop over the queue families in `init_vulkan`, from index `i` with the
current value of `preferred_queue_family`; the `int` counter is converted to
`uint32_t` by the assignment. -/
def init_vulkan_queue_family_loop :
    List VkQueueFamilyProperties → (i : Nat) → (preferred_queue_family : Nat) → Nat
  | [], _, preferred_queue_family => preferred_queue_family
  | q :: rest, i, preferred_queue_family =>
    if q.queueFlags &&& VK_QUEUE_GRAPHICS_BIT ≠ 0 then
      init_vulkan_queue_family_loop rest (i + 1) (i % UINT32_MODULUS)
    else
      init_vulkan_queue_family_loop rest (i + 1) preferred_queue_family

/-- The function `init_vulkan` of main.cpp. -/
def init_vulkan : M Unit := do
  print_implementation_information
  create_instance
  choose_physical_device
  let env ← get_env
  modify_world (fun w => { w with memory_properties := env.memory_properties })
  let queue_families := env.queue_families
  modify_world (fun w => { w with
    preferred_queue_family :=
      init_vulkan_queue_family_loop queue_families 0 w.preferred_queue_family })
  let w ← get_world
  if w.preferred_queue_family = NO_QUEUE_FAMILY then
    stop Fatal.exit_failure
  else
    if w.be_noisy then
      print_device_information w.physical_device
      create_device
    else
      create_device

/-! ## Acceleration Structure Sizer -/

/-- Bytes of a 32-bit float in memory (little-endian IEEE 754), for the two
values that occur in the geometry. -/
def float_bytes_0 : List Nat := [0x00, 0x00, 0x00, 0x00]
def float_bytes_1 : List Nat := [0x00, 0x00, 0x80, 0x3f]

/-- Bytes of a `uint32_t` in memory (little-endian). -/
def uint32_bytes (n : Nat) : List Nat :=
  [n % 256, n / 256 % 256, n / 65536 % 256, n / 16777216 % 256]

/-- The global array `vertices` of main.cpp as bytes: three vertices, each a
position and a colour of three floats. -/
def vertices : List Nat :=
  (float_bytes_0 ++ float_bytes_0 ++ float_bytes_0 ++ float_bytes_1 ++ float_bytes_0 ++ float_bytes_0) ++
  (float_bytes_1 ++ float_bytes_0 ++ float_bytes_0 ++ float_bytes_0 ++ float_bytes_1 ++ float_bytes_0) ++
  (float_bytes_0 ++ float_bytes_1 ++ float_bytes_0 ++ float_bytes_0 ++ float_bytes_0 ++ float_bytes_1)

/-- The global array `indices` of main.cpp as bytes. -/
def indices : List Nat := uint32_bytes 0 ++ uint32_bytes 1 ++ uint32_bytes 2

/-- The value of `sizeof(vertices)` where `vertices` is the global array. -/
def sizeof_vertices : Nat := 3 * sizeof_Vertex

/-- The value of `sizeof(indices)` where `indices` is the global array. -/
def sizeof_indices : Nat := 3 * 4

/-- The function `prepare_vulkan` of main.cpp, with its `assert` compiled in;
the three sizes it prints are not part of the model. -/
def prepare_vulkan : M Unit := do
  create_vertex_buffers vertices sizeof_vertices indices sizeof_indices
  let w ← get_world
  let r ← native (.vkGetBufferDeviceAddress w.vertex_buffer.buf)
  let vertexBufferDeviceAddress := r.handle
  let r ← native (.vkGetBufferDeviceAddress w.index_buffer.buf)
  let indexBufferDeviceAddress := r.handle
  let triangles : VkAccelerationStructureGeometryTrianglesDataKHR :=
    { vertexFormat := VK_FORMAT_R32G32B32_SFLOAT,
      vertexData := vertexBufferDeviceAddress,
      vertexStride := sizeof_Vertex,
      maxVertex := 2,
      indexType := VK_INDEX_TYPE_UINT32,
      indexData := indexBufferDeviceAddress,
      transformData := 0 }
  let geometries : List VkAccelerationStructureGeometryKHR :=
    [{ geometryType := VK_GEOMETRY_TYPE_TRIANGLES_KHR,
       triangles := triangles,
       flags := VK_GEOMETRY_OPAQUE_BIT_KHR }]
  let buildInfo : VkAccelerationStructureBuildGeometryInfoKHR :=
    { type := VK_ACCELERATION_STRUCTURE_TYPE_TOP_LEVEL_KHR,
      flags := VK_BUILD_ACCELERATION_STRUCTURE_PREFER_FAST_TRACE_BIT_KHR,
      mode := 0,
      srcAccelerationStructure := VK_NULL_HANDLE,
      dstAccelerationStructure := VK_NULL_HANDLE,
      geometryCount := 1,
      pGeometries := geometries,
      ppGeometries := 0,
      scratchData := 0 }
  let r ← native (.vkGetInstanceProcAddr "vkGetAccelerationStructureBuildSizesKHR")
  let getAccelerationStructureBuildSizes := r.handle
  if getAccelerationStructureBuildSizes = 0 then
    stop Fatal.assert_failed
  else
    let maxPrimitiveCounts : List Nat := [0]
    let _ ← native (.getAccelerationStructureBuildSizes
      VK_ACCELERATION_STRUCTURE_BUILD_TYPE_DEVICE_KHR buildInfo maxPrimitiveCounts)
    pure ()

/-! ## Reading of the trace as device state

The driver side of the statements about buffer contents: host copies and recorded
buffer copies are byte copies of the stated length, carried out when the fence
of their submission has been waited on successfully. -/

/-- The state of the device objects the uploader touches. -/
structure Device where
  /-- Live buffers with their sizes. -/
  buffers : List (Nat × Nat)
  /-- Live memory allocations with their contents. -/
  memories : List (Nat × List Nat)
  /-- Buffer, memory it is bound to, offset. -/
  bindings : List (Nat × Nat × Nat)
  /-- Host pointer, memory it maps, offset. -/
  mappings : List (Nat × Nat × Nat)
  /-- Copy commands recorded: command buffer, source, destination, region. -/
  recorded : List (Nat × Nat × Nat × VkBufferCopy)
  /-- Submissions not yet waited on: fence and command buffers. -/
  pending : List (Nat × List Nat)

def Device.empty : Device :=
  { buffers := [], memories := [], bindings := [], mappings := [], recorded := [], pending := [] }

/-- Overwrite `bytes.length` bytes of `contents` from `offset` on. -/
def write_bytes (contents : List Nat) (offset : Nat) (bytes : List Nat) : List Nat :=
  (contents.take offset ++ bytes ++ contents.drop (offset + bytes.length)).take contents.length

/-- Write bytes into a memory allocation at an offset. -/
def Device.write (dev : Device) (mem offset : Nat) (bytes : List Nat) : Device :=
  { dev with memories := dev.memories.map (fun entry =>
      if entry.1 = mem then (entry.1, write_bytes entry.2 offset bytes) else entry) }

/-- Read `size` bytes of a buffer from `offset` on, through its binding. -/
def Device.read (dev : Device) (buf offset size : Nat) : List Nat :=
  match dev.bindings.lookup buf with
  | none => []
  | some (mem, base) =>
    match dev.memories.lookup mem with
    | none => []
    | some contents => (contents.drop (base + offset)).take size

/-- Carry out one recorded copy. -/
def Device.copy (dev : Device) (src dst : Nat) (region : VkBufferCopy) : Device :=
  match dev.bindings.lookup dst with
  | none => dev
  | some (mem, base) =>
    dev.write mem (base + region.dstOffset) (dev.read src region.srcOffset region.size)

/-- Carry out the copies recorded in the given command buffers, in order. -/
def Device.execute (dev : Device) (commandBuffers : List Nat) : Device :=
  (dev.recorded.filter (fun c => commandBuffers.contains c.1)).foldl
    (fun d c => d.copy c.2.1 c.2.2.1 c.2.2.2) dev

/-- The effect of one event of the trace on the device state. -/
def Device.step (dev : Device) (e : Event) : Device :=
  match e.call with
  | .vkCreateBuffer size _ =>
    if e.reply.result = VK_SUCCESS then
      { dev with buffers := (e.reply.handle, size) :: dev.buffers }
    else dev
  | .vkAllocateMemory allocationSize _ =>
    if e.reply.result = VK_SUCCESS then
      { dev with memories := (e.reply.handle, List.replicate allocationSize 0) :: dev.memories }
    else dev
  | .vkMapMemory mem offset _ =>
    if e.reply.result = VK_SUCCESS then
      { dev with mappings := (e.reply.handle, mem, offset) :: dev.mappings }
    else dev
  | .memcpy dst bytes =>
    (match dev.mappings.lookup dst with
     | none => dev
     | some (mem, offset) => dev.write mem offset bytes)
  | .vkUnmapMemory mem =>
    { dev with mappings := dev.mappings.filter (fun m => m.2.1 ≠ mem) }
  | .vkBindBufferMemory buf mem offset =>
    if e.reply.result = VK_SUCCESS then
      { dev with bindings := (buf, mem, offset) :: dev.bindings }
    else dev
  | .vkCmdCopyBuffer commandBuffer src dst regions =>
    { dev with recorded := dev.recorded ++ regions.map (fun r => (commandBuffer, src, dst, r)) }
  | .vkQueueSubmit _ commandBuffers fence =>
    if e.reply.result = VK_SUCCESS then
      { dev with pending := dev.pending ++ [(fence, commandBuffers)] }
    else dev
  | .vkWaitForFences fences _ _ =>
    if e.reply.result = VK_SUCCESS then
      let done := dev.pending.filter (fun p => fences.contains p.1)
      let dev1 := done.foldl (fun d p => d.execute p.2) dev
      { dev1 with pending := dev.pending.filter (fun p => !fences.contains p.1) }
    else dev
  | .vkFreeCommandBuffers _ commandBuffers =>
    { dev with recorded := dev.recorded.filter (fun c => !commandBuffers.contains c.1) }
  | .vkDestroyBuffer buf =>
    { dev with buffers := dev.buffers.filter (fun b => b.1 ≠ buf),
               bindings := dev.bindings.filter (fun b => b.1 ≠ buf) }
  | .vkFreeMemory mem =>
    { dev with memories := dev.memories.filter (fun m => m.1 ≠ mem) }
  | _ => dev

/-- The device state after a trace. -/
def Device.replay (trace : List Event) : Device :=
  trace.foldl Device.step Device.empty

/-- The contents of a live buffer after a trace: all bytes of the buffer, or
nothing when the buffer does not exist. -/
def buffer_contents (trace : List Event) (buf : Nat) : Option (List Nat) :=
  let dev := Device.replay trace
  match dev.buffers.lookup buf with
  | none => none
  | some size => some (dev.read buf 0 size)

/-- A world before `init_vulkan`: the initial values of the globals of
main.cpp, with the verbosity flag as read from the process environment. -/
def World.initial (be_noisy : Bool) : World :=
  { trace := [],
    vk_instance := VK_NULL_HANDLE,
    physical_device := VK_NULL_HANDLE,
    preferred_queue_family := NO_QUEUE_FAMILY,
    device := VK_NULL_HANDLE,
    memory_properties := { memoryTypeCount := 0, memoryTypes := fun _ => ⟨0, 0⟩ },
    queue := VK_NULL_HANDLE,
    command_pool := VK_NULL_HANDLE,
    be_noisy := be_noisy,
    vertex_buffer := ⟨VK_NULL_HANDLE, VK_NULL_HANDLE⟩,
    index_buffer := ⟨VK_NULL_HANDLE, VK_NULL_HANDLE⟩ }

/-! ## Specification-side predicates, trace observers and sample inputs -/

/-- Specification side: entry `k` of the queue-family table exists and its
`queueFlags` has the graphics bit (bit 0). -/
def GraphicsCapableAt (queue_families : List VkQueueFamilyProperties) (k : Nat) : Prop :=
  ∃ q : VkQueueFamilyProperties, queue_families[k]? = some q ∧ q.queueFlags.testBit 0 = true

/-- A memory-type table with three entries: device-local, host-visible and
host-coherent, and all three flags. -/
def sample_memory_properties : VkPhysicalDeviceMemoryProperties :=
  { memoryTypeCount := 3,
    memoryTypes := fun i => ([⟨1, 0⟩, ⟨6, 1⟩, ⟨7, 1⟩] : List VkMemoryType).getD i ⟨0, 0⟩ }

/-- A queue-family table with three entries: graphics, transfer only, graphics
and compute. -/
def sample_queue_families : List VkQueueFamilyProperties := [⟨1, 1⟩, ⟨4, 1⟩, ⟨3, 2⟩]


/-- The events of a run of `create_vertex_buffers` in which every step
succeeds, as a function of the replies from position `n` on, the globals it
reads, the data, and the four memory type indices chosen by the resolver. -/
def upload_events (env : Env) (n command_pool queue : Nat) (vertices indices : List Nat)
    (staging_vertex_type staging_index_type vertex_type index_type : Nat) : List Event :=
  [⟨.vkCreateBuffer env.sizeof_pointer VK_BUFFER_USAGE_TRANSFER_SRC_BIT, env.reply n⟩,
   ⟨.vkGetBufferMemoryRequirements (env.reply n).handle, env.reply (n + 1)⟩,
   ⟨.vkAllocateMemory (env.reply (n + 1)).memoryRequirements.size staging_vertex_type,
      env.reply (n + 2)⟩,
   ⟨.vkMapMemory (env.reply (n + 2)).handle 0 (env.reply (n + 1)).memoryRequirements.size,
      env.reply (n + 3)⟩,
   ⟨.memcpy (env.reply (n + 3)).handle (vertices.take env.sizeof_pointer), env.reply (n + 4)⟩,
   ⟨.vkUnmapMemory (env.reply (n + 2)).handle, env.reply (n + 5)⟩,
   ⟨.vkBindBufferMemory (env.reply n).handle (env.reply (n + 2)).handle 0, env.reply (n + 6)⟩,
   ⟨.vkCreateBuffer env.sizeof_pointer VK_BUFFER_USAGE_TRANSFER_SRC_BIT, env.reply (n + 7)⟩,
   ⟨.vkGetBufferMemoryRequirements (env.reply (n + 7)).handle, env.reply (n + 8)⟩,
   ⟨.vkAllocateMemory (env.reply (n + 8)).memoryRequirements.size staging_index_type,
      env.reply (n + 9)⟩,
   ⟨.vkMapMemory (env.reply (n + 9)).handle 0 (env.reply (n + 8)).memoryRequirements.size,
      env.reply (n + 10)⟩,
   ⟨.memcpy (env.reply (n + 10)).handle (indices.take env.sizeof_pointer), env.reply (n + 11)⟩,
   ⟨.vkUnmapMemory (env.reply (n + 9)).handle, env.reply (n + 12)⟩,
   ⟨.vkBindBufferMemory (env.reply (n + 7)).handle (env.reply (n + 9)).handle 0,
      env.reply (n + 13)⟩,
   ⟨.vkCreateBuffer env.sizeof_pointer
      (VK_BUFFER_USAGE_VERTEX_BUFFER_BIT ||| VK_BUFFER_USAGE_TRANSFER_DST_BIT), env.reply (n + 14)⟩,
   ⟨.vkGetBufferMemoryRequirements (env.reply (n + 14)).handle, env.reply (n + 15)⟩,
   ⟨.vkAllocateMemory (env.reply (n + 15)).memoryRequirements.size vertex_type,
      env.reply (n + 16)⟩,
   ⟨.vkBindBufferMemory (env.reply (n + 14)).handle (env.reply (n + 16)).handle 0,
      env.reply (n + 17)⟩,
   ⟨.vkCreateBuffer env.sizeof_pointer
      (VK_BUFFER_USAGE_INDEX_BUFFER_BIT ||| VK_BUFFER_USAGE_TRANSFER_DST_BIT), env.reply (n + 18)⟩,
   ⟨.vkGetBufferMemoryRequirements (env.reply (n + 18)).handle, env.reply (n + 19)⟩,
   ⟨.vkAllocateMemory (env.reply (n + 19)).memoryRequirements.size index_type,
      env.reply (n + 20)⟩,
   ⟨.vkBindBufferMemory (env.reply (n + 18)).handle (env.reply (n + 20)).handle 0,
      env.reply (n + 21)⟩,
   ⟨.vkAllocateCommandBuffers command_pool VK_COMMAND_BUFFER_LEVEL_PRIMARY 1, env.reply (n + 22)⟩,
   ⟨.vkBeginCommandBuffer (env.reply (n + 22)).handle 0, env.reply (n + 23)⟩,
   ⟨.vkCmdCopyBuffer (env.reply (n + 22)).handle (env.reply n).handle (env.reply (n + 14)).handle
      [{ srcOffset := 0, dstOffset := 0, size := env.sizeof_pointer }], env.reply (n + 24)⟩,
   ⟨.vkCmdCopyBuffer (env.reply (n + 22)).handle (env.reply (n + 7)).handle
      (env.reply (n + 18)).handle
      [{ srcOffset := 0, dstOffset := 0, size := env.sizeof_pointer }], env.reply (n + 25)⟩,
   ⟨.vkEndCommandBuffer (env.reply (n + 22)).handle, env.reply (n + 26)⟩,
   ⟨.vkCreateFence 0, env.reply (n + 27)⟩,
   ⟨.vkQueueSubmit queue [(env.reply (n + 22)).handle] (env.reply (n + 27)).handle,
      env.reply (n + 28)⟩,
   ⟨.vkWaitForFences [(env.reply (n + 27)).handle] true DEFAULT_FENCE_TIMEOUT,
      env.reply (n + 29)⟩,
   ⟨.vkDestroyFence (env.reply (n + 27)).handle, env.reply (n + 30)⟩,
   ⟨.vkFreeCommandBuffers command_pool [(env.reply (n + 22)).handle], env.reply (n + 31)⟩,
   ⟨.vkDestroyBuffer (env.reply n).handle, env.reply (n + 32)⟩,
   ⟨.vkDestroyBuffer (env.reply (n + 7)).handle, env.reply (n + 33)⟩,
   ⟨.vkFreeMemory (env.reply (n + 2)).handle, env.reply (n + 34)⟩,
   ⟨.vkFreeMemory (env.reply (n + 9)).handle, env.reply (n + 35)⟩]

/-- An environment in which every call succeeds: the n-th call yields the
handle `100 + n` and memory requirements of 16 bytes open to the memory types
0, 1 and 2; pointers are 8 bytes wide. -/
def sample_env : Env :=
  { reply := fun n => ⟨VK_SUCCESS, 100 + n, ⟨16, 4, 7⟩⟩,
    sizeof_pointer := 8,
    physical_devices := [7],
    indeterminate_physical_device := 0xABAB,
    memory_properties := sample_memory_properties,
    queue_families := sample_queue_families }


/-- The world in which `init_vulkan` leaves the program when run from the
initial world in the sample environment. -/
def sample_world : World := (init_vulkan sample_env (World.initial false)).world


/-- An allocation as the trace shows it: the buffer whose memory requirements
were queried last before the allocation, the usage that buffer was created
with, the `memoryTypeBits` reported for it, and the memory type index passed
to `vkAllocateMemory`. -/
structure AllocationSite where
  buf : Nat
  usage : Option Nat
  memoryTypeBits : Nat
  memoryTypeIndex : Nat
  deriving DecidableEq, Repr

/-- Scan of a trace for its allocations, given the buffers created so far
(handle and usage) and the last memory-requirements query (buffer and mask). -/
def allocation_sites_from (created : List (Nat × Nat)) (queried : Nat × Nat) :
    List Event → List AllocationSite
  | [] => []
  | e :: rest =>
    match e.call with
    | .vkCreateBuffer _ usage =>
      if e.reply.result = VK_SUCCESS then
        allocation_sites_from ((e.reply.handle, usage) :: created) queried rest
      else allocation_sites_from created queried rest
    | .vkGetBufferMemoryRequirements buf =>
      allocation_sites_from created (buf, e.reply.memoryRequirements.memoryTypeBits) rest
    | .vkAllocateMemory _ memoryTypeIndex =>
      ⟨queried.1, created.lookup queried.1, queried.2, memoryTypeIndex⟩ ::
        allocation_sites_from created queried rest
    | _ => allocation_sites_from created queried rest

/-- The allocations of a trace, in order. -/
def allocation_sites (trace : List Event) : List AllocationSite :=
  allocation_sites_from [] (0, 0) trace

/-- The buffers a trace creates successfully, in order: handle and usage. -/
def created_buffers : List Event → List (Nat × Nat)
  | [] => []
  | e :: rest =>
    match e.call with
    | .vkCreateBuffer _ usage =>
      if e.reply.result = VK_SUCCESS then (e.reply.handle, usage) :: created_buffers rest
      else created_buffers rest
    | _ => created_buffers rest

/-- The sizes passed to `vkCreateBuffer` in a trace, in order. -/
def buffer_sizes : List Event → List Nat
  | [] => []
  | e :: rest =>
    match e.call with
    | .vkCreateBuffer size _ => size :: buffer_sizes rest
    | _ => buffer_sizes rest

/-- The numbers of bytes copied by the host copies of a trace, in order. -/
def host_copy_sizes : List Event → List Nat
  | [] => []
  | e :: rest =>
    match e.call with
    | .memcpy _ bytes => bytes.length :: host_copy_sizes rest
    | _ => host_copy_sizes rest

/-- The copy commands recorded in a trace, in order: command buffer, source,
destination and regions. -/
def copy_commands : List Event → List (Nat × Nat × Nat × List VkBufferCopy)
  | [] => []
  | e :: rest =>
    match e.call with
    | .vkCmdCopyBuffer commandBuffer src dst regions =>
      (commandBuffer, src, dst, regions) :: copy_commands rest
    | _ => copy_commands rest

/-- The run of the uploader as `prepare_vulkan` starts it, `create_vertex_buffers(vertices,
sizeof(vertices), indices, sizeof(indices))`, in the sample environment (8-byte
pointers, every call succeeds). -/
def sample_upload : Res Unit :=
  create_vertex_buffers vertices sizeof_vertices indices sizeof_indices sample_env sample_world

/-- The buffers a trace destroys, in order. -/
def destroyed_buffers : List Event → List Nat
  | [] => []
  | e :: rest =>
    match e.call with
    | .vkDestroyBuffer buf => buf :: destroyed_buffers rest
    | _ => destroyed_buffers rest

/-- The memory allocations a trace frees, in order. -/
def freed_memories : List Event → List Nat
  | [] => []
  | e :: rest =>
    match e.call with
    | .vkFreeMemory mem => mem :: freed_memories rest
    | _ => freed_memories rest

/-- The memory allocations a trace makes successfully, in order. -/
def allocated_memories : List Event → List Nat
  | [] => []
  | e :: rest =>
    match e.call with
    | .vkAllocateMemory _ _ =>
      if e.reply.result = VK_SUCCESS then e.reply.handle :: allocated_memories rest
      else allocated_memories rest
    | _ => allocated_memories rest

/-- The sample environment with the status of the n-th call replaced. -/
def sample_env_with (n : Nat) (status : VkResult) : Env :=
  { sample_env with
    reply := fun k => if k = n then ⟨status, 100 + k, ⟨16, 4, 7⟩⟩ else sample_env.reply k }

/-- The status a conformant driver reports from `vkEnumeratePhysicalDevices`
(Vulkan specification): `VK_INCOMPLETE` when an array is passed whose capacity
is below the number of devices available, `VK_SUCCESS` otherwise. -/
def vkEnumeratePhysicalDevices_status (available : Nat) (capacity : Option Nat) : VkResult :=
  match capacity with
  | none => VK_SUCCESS
  | some c => if c < available then VK_INCOMPLETE else VK_SUCCESS

/-- An environment with 33 physical devices, the handles 1000 to 1032, in which
the enumeration calls of `choose_physical_device` from the empty trace (the
count query, then the calls with the array of 32 entries) get the status of a
conformant driver and every other call succeeds. -/
def many_devices_env : Env :=
  { sample_env with
    physical_devices := (List.range 33).map (fun i => 1000 + i),
    reply := fun k =>
      if k = 0 then ⟨vkEnumeratePhysicalDevices_status 33 none, 100 + k, ⟨16, 4, 7⟩⟩
      else if k = 1 ∨ k = 2 then
        ⟨vkEnumeratePhysicalDevices_status 33 (some 32), 100 + k, ⟨16, 4, 7⟩⟩
      else sample_env.reply k }

/-! # Theorems -/

/-! ## The memory-type resolver -/

/-- For a shift below 32 the test `type_bits & (1 << i)` reads bit `i` of the mask. -/
theorem mask_bit_iff (type_bits i : Nat) (hi : i < 32) :
    type_bits &&& ((1 <<< i) % UINT32_MODULUS) ≠ 0 ↔ type_bits.testBit i = true := by
  have hlt : 2 ^ i < 2 ^ 32 := Nat.pow_lt_pow_right (by decide) hi
  rw [Nat.one_shiftLeft, UINT32_MODULUS, Nat.mod_eq_of_lt hlt, Nat.and_two_pow]
  cases type_bits.testBit i <;> simp

/-- The test `(flags & properties) == properties` holds exactly when every
required flag is among the flags. -/
theorem flags_subset_iff (flags properties : Nat) :
    flags &&& properties = properties ↔
      ∀ b : Nat, properties.testBit b = true → flags.testBit b = true := by
  constructor
  · intro h b hb
    rw [← h, Nat.testBit_and] at hb
    simp only [Bool.and_eq_true] at hb
    exact hb.1
  · intro h
    apply Nat.eq_of_testBit_eq
    intro b
    rw [Nat.testBit_and]
    cases hp : properties.testBit b
    · simp
    · simp [h b hp]

/-- The loop of the resolver from index `i`: a returned index is the first
match at or after `i`, and the failure outcome means there is no match in the
remaining range. -/
theorem getMemoryTypeIndex_loop_spec (mp : VkPhysicalDeviceMemoryProperties)
    (type_bits properties : Nat) :
    ∀ remaining i : Nat, i + remaining ≤ 32 →
      match getMemoryTypeIndex_loop mp type_bits properties remaining i with
      | .ok k => i ≤ k ∧ k < i + remaining ∧ MemoryTypeMatches mp type_bits properties k ∧
          ∀ j : Nat, i ≤ j → j < k → ¬ MemoryTypeMatches mp type_bits properties j
      | .error f => f = Fatal.uncaught_throw ∧
          ∀ j : Nat, i ≤ j → j < i + remaining → ¬ MemoryTypeMatches mp type_bits properties j := by
  intro remaining
  induction remaining with
  | zero =>
    intro i _
    simp only [getMemoryTypeIndex_loop]
    exact ⟨trivial, fun j h1 h2 => absurd h2 (by omega)⟩
  | succ n ih =>
    intro i hi
    have hi32 : i < 32 := by omega
    have hrec := ih (i + 1) (by omega)
    have hstep : ∀ j : Nat, i ≤ j → ¬ MemoryTypeMatches mp type_bits properties i →
        (i + 1 ≤ j → ¬ MemoryTypeMatches mp type_bits properties j) →
        ¬ MemoryTypeMatches mp type_bits properties j := by
      intro j hij hni hrest
      rcases Nat.eq_or_lt_of_le hij with h | h
      · subst h; exact hni
      · exact hrest h
    simp only [getMemoryTypeIndex_loop]
    by_cases hbit : type_bits &&& ((1 <<< i) % UINT32_MODULUS) ≠ 0
    · by_cases hfl : (mp.memoryTypes i).propertyFlags &&& properties = properties
      · rw [if_pos hbit, if_pos hfl]
        refine ⟨le_refl i, by omega, ⟨(mask_bit_iff type_bits i hi32).1 hbit,
          (flags_subset_iff _ _).1 hfl⟩, fun j h1 h2 => absurd h2 (by omega)⟩
      · rw [if_pos hbit, if_neg hfl]
        have hni : ¬ MemoryTypeMatches mp type_bits properties i :=
          fun hm => hfl ((flags_subset_iff _ _).2 hm.2)
        revert hrec
        cases getMemoryTypeIndex_loop mp type_bits properties n (i + 1) with
        | ok k =>
          rintro ⟨h1, h2, h3, h4⟩
          exact ⟨by omega, by omega, h3, fun j hj1 hj2 => hstep j hj1 hni (fun h => h4 j h hj2)⟩
        | error f =>
          rintro ⟨h1, h2⟩
          exact ⟨h1, fun j hj1 hj2 => hstep j hj1 hni (fun h => h2 j h (by omega))⟩
    · rw [if_neg hbit]
      have hni : ¬ MemoryTypeMatches mp type_bits properties i :=
        fun hm => hbit ((mask_bit_iff type_bits i hi32).2 hm.1)
      revert hrec
      cases getMemoryTypeIndex_loop mp type_bits properties n (i + 1) with
      | ok k =>
        rintro ⟨h1, h2, h3, h4⟩
        exact ⟨by omega, by omega, h3, fun j hj1 hj2 => hstep j hj1 hni (fun h => h4 j h hj2)⟩
      | error f =>
        rintro ⟨h1, h2⟩
        exact ⟨h1, fun j hj1 hj2 => hstep j hj1 hni (fun h => h2 j h (by omega))⟩


/-- C1: when some index below `memoryTypeCount` (at most 32) is in the mask and
has every required flag, `getMemoryTypeIndex` returns the smallest such index:
the returned index is below the count, is in the mask, carries all required
flags, and no smaller index does. -/
theorem getMemoryTypeIndex_returns_lowest_match (mp : VkPhysicalDeviceMemoryProperties)
    (type_bits properties : Nat) (hcount : mp.memoryTypeCount ≤ 32)
    (hmatch : ∃ i : Nat, i < mp.memoryTypeCount ∧ MemoryTypeMatches mp type_bits properties i) :
    ∃ i : Nat, getMemoryTypeIndex mp type_bits properties = .ok i ∧
      i < mp.memoryTypeCount ∧ MemoryTypeMatches mp type_bits properties i ∧
      ∀ j : Nat, j < i → ¬ MemoryTypeMatches mp type_bits properties j := by
  have h := getMemoryTypeIndex_loop_spec mp type_bits properties mp.memoryTypeCount 0 (by omega)
  unfold getMemoryTypeIndex
  revert h
  cases getMemoryTypeIndex_loop mp type_bits properties mp.memoryTypeCount 0 with
  | ok k =>
    rintro ⟨_, h2, h3, h4⟩
    exact ⟨k, rfl, by omega, h3, fun j hj => h4 j (Nat.zero_le j) hj⟩
  | error f =>
    rintro ⟨_, h2⟩
    obtain ⟨i, hi, hm⟩ := hmatch
    exact absurd hm (h2 i (Nat.zero_le i) (by omega))

theorem getMemoryTypeIndex_returns_lowest_match_witness :
    sample_memory_properties.memoryTypeCount ≤ 32 ∧
    (∃ i : Nat, i < sample_memory_properties.memoryTypeCount ∧
      MemoryTypeMatches sample_memory_properties 6 6 i) ∧
    ∃ i : Nat, getMemoryTypeIndex sample_memory_properties 6 6 = .ok i ∧
      i < sample_memory_properties.memoryTypeCount ∧
      MemoryTypeMatches sample_memory_properties 6 6 i ∧
      ∀ j : Nat, j < i → ¬ MemoryTypeMatches sample_memory_properties 6 6 j :=
  have h1 : sample_memory_properties.memoryTypeCount ≤ 32 := by decide
  have h2 : ∃ i : Nat, i < sample_memory_properties.memoryTypeCount ∧
      MemoryTypeMatches sample_memory_properties 6 6 i :=
    ⟨2, by decide, by decide, (flags_subset_iff _ _).1 (by decide)⟩
  ⟨h1, h2, getMemoryTypeIndex_returns_lowest_match sample_memory_properties 6 6 h1 h2⟩

/-- C2: over a table with at most 32 entries, `getMemoryTypeIndex` ends in its
failure outcome (the `throw`) exactly when no index below `memoryTypeCount` is
in the mask with all required flags, and then it returns no index. -/
theorem getMemoryTypeIndex_fails_iff_no_match (mp : VkPhysicalDeviceMemoryProperties)
    (type_bits properties : Nat) (hcount : mp.memoryTypeCount ≤ 32) :
    (getMemoryTypeIndex mp type_bits properties = .error Fatal.uncaught_throw ↔
      ∀ i : Nat, i < mp.memoryTypeCount → ¬ MemoryTypeMatches mp type_bits properties i) ∧
    ((∀ i : Nat, i < mp.memoryTypeCount → ¬ MemoryTypeMatches mp type_bits properties i) →
      ∀ k : Nat, getMemoryTypeIndex mp type_bits properties ≠ .ok k) ∧
    (∀ f : Fatal, getMemoryTypeIndex mp type_bits properties = .error f →
      f = Fatal.uncaught_throw) := by
  have h := getMemoryTypeIndex_loop_spec mp type_bits properties mp.memoryTypeCount 0 (by omega)
  unfold getMemoryTypeIndex
  revert h
  cases getMemoryTypeIndex_loop mp type_bits properties mp.memoryTypeCount 0 with
  | ok k =>
    rintro ⟨_, h2, h3, _⟩
    refine ⟨⟨fun h => (by cases h), fun h => absurd h3 (h k (by omega))⟩,
      fun h => absurd h3 (h k (by omega)), fun f h => (by cases h)⟩
  | error f =>
    rintro ⟨h1, h2⟩
    subst h1
    refine ⟨⟨fun _ i hi => h2 i (Nat.zero_le i) (by omega), fun _ => rfl⟩,
      fun _ k h => (by cases h), fun f h => ?_⟩
    cases h
    rfl

theorem getMemoryTypeIndex_fails_iff_no_match_witness :
    sample_memory_properties.memoryTypeCount ≤ 32 ∧
    ((getMemoryTypeIndex sample_memory_properties 1 6 = .error Fatal.uncaught_throw ↔
      ∀ i : Nat, i < sample_memory_properties.memoryTypeCount →
        ¬ MemoryTypeMatches sample_memory_properties 1 6 i) ∧
    ((∀ i : Nat, i < sample_memory_properties.memoryTypeCount →
        ¬ MemoryTypeMatches sample_memory_properties 1 6 i) →
      ∀ k : Nat, getMemoryTypeIndex sample_memory_properties 1 6 ≠ .ok k) ∧
    (∀ f : Fatal, getMemoryTypeIndex sample_memory_properties 1 6 = .error f →
      f = Fatal.uncaught_throw)) :=
  ⟨by decide, getMemoryTypeIndex_fails_iff_no_match sample_memory_properties 1 6 (by decide)⟩


/-! ## The queue-family selection -/

/-- The test `queueFlags & VK_QUEUE_GRAPHICS_BIT` reads bit 0 of the flags. -/
theorem graphics_bit_iff (flags : Nat) :
    flags &&& VK_QUEUE_GRAPHICS_BIT ≠ 0 ↔ flags.testBit 0 = true := by
  have h := Nat.and_two_pow flags 0
  rw [pow_zero] at h
  rw [VK_QUEUE_GRAPHICS_BIT, h]
  cases flags.testBit 0 <;> simp

theorem graphicsCapableAt_zero (q : VkQueueFamilyProperties)
    (rest : List VkQueueFamilyProperties) :
    GraphicsCapableAt (q :: rest) 0 ↔ q.queueFlags.testBit 0 = true := by
  unfold GraphicsCapableAt
  constructor
  · rintro ⟨q1, h1, h2⟩
    simp only [List.getElem?_cons_zero, Option.some.injEq] at h1
    subst h1
    exact h2
  · intro h
    exact ⟨q, by simp, h⟩

theorem graphicsCapableAt_succ (q : VkQueueFamilyProperties)
    (rest : List VkQueueFamilyProperties) (j : Nat) :
    GraphicsCapableAt (q :: rest) (j + 1) ↔ GraphicsCapableAt rest j := by
  unfold GraphicsCapableAt
  simp only [List.getElem?_cons_succ]

theorem graphicsCapableAt_lt (queue_families : List VkQueueFamilyProperties) (k : Nat)
    (h : GraphicsCapableAt queue_families k) : k < queue_families.length := by
  obtain ⟨q, hq, _⟩ := h
  by_contra hk
  rw [List.getElem?_eq_none (by omega)] at hq
  cases hq

/-- The loop from index `i`: without a graphics-capable entry it keeps the
value it started with, otherwise it ends with the index of the last one. -/
theorem init_vulkan_queue_family_loop_spec :
    ∀ (queue_families : List VkQueueFamilyProperties) (i preferred : Nat),
      i + queue_families.length ≤ UINT32_MODULUS →
      ((∀ k : Nat, ¬ GraphicsCapableAt queue_families k) →
        init_vulkan_queue_family_loop queue_families i preferred = preferred) ∧
      ((∃ k : Nat, GraphicsCapableAt queue_families k) →
        ∃ k : Nat, init_vulkan_queue_family_loop queue_families i preferred = i + k ∧
          GraphicsCapableAt queue_families k ∧
          ∀ j : Nat, GraphicsCapableAt queue_families j → j ≤ k) := by
  intro queue_families
  induction queue_families with
  | nil =>
    intro i preferred _
    refine ⟨fun _ => rfl, ?_⟩
    rintro ⟨k, hk⟩
    exact absurd (graphicsCapableAt_lt [] k hk) (by simp)
  | cons q rest ih =>
    intro i preferred hlen
    simp only [List.length_cons] at hlen
    have hi : i % UINT32_MODULUS = i := Nat.mod_eq_of_lt (by omega)
    by_cases hq : q.queueFlags &&& VK_QUEUE_GRAPHICS_BIT ≠ 0
    · have hq0 : GraphicsCapableAt (q :: rest) 0 :=
        (graphicsCapableAt_zero q rest).2 ((graphics_bit_iff _).1 hq)
      have hloop : init_vulkan_queue_family_loop (q :: rest) i preferred =
          init_vulkan_queue_family_loop rest (i + 1) i := by
        simp only [init_vulkan_queue_family_loop, if_pos hq, hi]
      obtain ⟨ih1, ih2⟩ := ih (i + 1) i (by omega)
      refine ⟨fun hnone => absurd hq0 (hnone 0), fun _ => ?_⟩
      by_cases hrest : ∃ k : Nat, GraphicsCapableAt rest k
      · obtain ⟨k, hk1, hk2, hk3⟩ := ih2 hrest
        refine ⟨k + 1, by rw [hloop, hk1]; omega, (graphicsCapableAt_succ q rest k).2 hk2, ?_⟩
        intro j hj
        cases j with
        | zero => omega
        | succ j => exact Nat.succ_le_succ (hk3 j ((graphicsCapableAt_succ q rest j).1 hj))
      · have hnone : ∀ k : Nat, ¬ GraphicsCapableAt rest k := fun k hk => hrest ⟨k, hk⟩
        refine ⟨0, by rw [hloop, ih1 hnone]; rfl, hq0, ?_⟩
        intro j hj
        cases j with
        | zero => exact le_refl 0
        | succ j => exact absurd ((graphicsCapableAt_succ q rest j).1 hj) (hnone j)
    · have hq0 : ¬ GraphicsCapableAt (q :: rest) 0 :=
        fun h => hq ((graphics_bit_iff _).2 ((graphicsCapableAt_zero q rest).1 h))
      have hloop : init_vulkan_queue_family_loop (q :: rest) i preferred =
          init_vulkan_queue_family_loop rest (i + 1) preferred := by
        simp only [init_vulkan_queue_family_loop, if_neg hq]
      obtain ⟨ih1, ih2⟩ := ih (i + 1) preferred (by omega)
      constructor
      · intro hnone
        rw [hloop]
        exact ih1 (fun k hk => hnone (k + 1) ((graphicsCapableAt_succ q rest k).2 hk))
      · rintro ⟨k, hk⟩
        cases k with
        | zero => exact absurd hk hq0
        | succ k =>
          obtain ⟨k1, hk1, hk2, hk3⟩ := ih2 ⟨k, (graphicsCapableAt_succ q rest k).1 hk⟩
          refine ⟨k1 + 1, by rw [hloop, hk1]; omega, (graphicsCapableAt_succ q rest k1).2 hk2, ?_⟩
          intro j hj
          cases j with
          | zero => omega
          | succ j => exact Nat.succ_le_succ (hk3 j ((graphicsCapableAt_succ q rest j).1 hj))

/-- C7: started with `preferred_queue_family = NO_QUEUE_FAMILY`, over a table
that has a graphics-capable entry the selection loop of `init_vulkan` ends with
the largest index of such an entry; when exactly one entry is graphics-capable
the selected index is that entry. The selected index is a function of the
table alone. -/
theorem init_vulkan_selects_last_graphics_family
    (queue_families : List VkQueueFamilyProperties)
    (hlen : queue_families.length ≤ INT_MAX)
    (hsome : ∃ k : Nat, GraphicsCapableAt queue_families k) :
    GraphicsCapableAt queue_families
        (init_vulkan_queue_family_loop queue_families 0 NO_QUEUE_FAMILY) ∧
    (∀ j : Nat, GraphicsCapableAt queue_families j →
        j ≤ init_vulkan_queue_family_loop queue_families 0 NO_QUEUE_FAMILY) ∧
    (∀ k : Nat, GraphicsCapableAt queue_families k →
        (∀ j : Nat, GraphicsCapableAt queue_families j → j = k) →
        init_vulkan_queue_family_loop queue_families 0 NO_QUEUE_FAMILY = k) := by
  have hbound : 0 + queue_families.length ≤ UINT32_MODULUS := by
    have : INT_MAX ≤ UINT32_MODULUS := by decide
    omega
  obtain ⟨k, hk1, hk2, hk3⟩ :=
    (init_vulkan_queue_family_loop_spec queue_families 0 NO_QUEUE_FAMILY hbound).2 hsome
  rw [hk1, Nat.zero_add]
  exact ⟨hk2, hk3, fun k1 _ huniq => huniq k hk2⟩

theorem init_vulkan_selects_last_graphics_family_witness :
    sample_queue_families.length ≤ INT_MAX ∧
    (∃ k : Nat, GraphicsCapableAt sample_queue_families k) ∧
    init_vulkan_queue_family_loop sample_queue_families 0 NO_QUEUE_FAMILY = 2 ∧
    GraphicsCapableAt sample_queue_families
        (init_vulkan_queue_family_loop sample_queue_families 0 NO_QUEUE_FAMILY) ∧
    (∀ j : Nat, GraphicsCapableAt sample_queue_families j →
        j ≤ init_vulkan_queue_family_loop sample_queue_families 0 NO_QUEUE_FAMILY) ∧
    (∀ k : Nat, GraphicsCapableAt sample_queue_families k →
        (∀ j : Nat, GraphicsCapableAt sample_queue_families j → j = k) →
        init_vulkan_queue_family_loop sample_queue_families 0 NO_QUEUE_FAMILY = k) :=
  have h1 : sample_queue_families.length ≤ INT_MAX := by decide
  have h2 : ∃ k : Nat, GraphicsCapableAt sample_queue_families k :=
    ⟨0, ⟨1, 1⟩, rfl, by decide⟩
  ⟨h1, h2, by decide, init_vulkan_selects_last_graphics_family sample_queue_families h1 h2⟩

/-! ## Running pieces of the program -/

theorem run_pure {α : Type} (a : α) (env : Env) (w : World) :
    (pure a : M α) env w = Res.ok a w := rfl

theorem run_bind {α β : Type} (m : M α) (f : α → M β) (env : Env) (w : World) :
    (m >>= f) env w =
      match m env w with
      | .ok a w1 => f a env w1
      | .fatal e w1 => .fatal e w1 := rfl

theorem run_get_env (env : Env) (w : World) : get_env env w = Res.ok env w := rfl

theorem run_get_world (env : Env) (w : World) : get_world env w = Res.ok w w := rfl

theorem run_modify_world (f : World → World) (env : Env) (w : World) :
    modify_world f env w = Res.ok () (f w) := rfl

theorem run_stop {α : Type} (f : Fatal) (env : Env) (w : World) :
    (stop f : M α) env w = Res.fatal f w := rfl

theorem run_native (c : Call) (env : Env) (w : World) :
    native c env w = Res.ok (env.reply w.trace.length)
      { w with trace := w.trace ++ [⟨c, env.reply w.trace.length⟩] } := rfl

/-- A checked call: one event and the reply on success; on any other status the
call is made a second time and the run exits. -/
theorem run_VK_CHECK_native (c : Call) (env : Env) (w : World) :
    VK_CHECK (native c) env w =
      if (env.reply w.trace.length).result = VK_SUCCESS then
        Res.ok (env.reply w.trace.length)
          { w with trace := w.trace ++ [⟨c, env.reply w.trace.length⟩] }
      else
        Res.fatal Fatal.exit_failure
          { w with trace := w.trace ++ [⟨c, env.reply w.trace.length⟩,
              ⟨c, env.reply (w.trace.length + 1)⟩] } := by
  unfold VK_CHECK
  by_cases h : (env.reply w.trace.length).result = VK_SUCCESS
  · simp [run_bind, run_native, run_pure, h]
  · simp [run_bind, run_native, run_stop, h]

theorem run_getMemoryTypeIndexM (type_bits properties : Nat) (env : Env) (w : World) :
    getMemoryTypeIndexM type_bits properties env w =
      match getMemoryTypeIndex w.memory_properties type_bits properties with
      | .ok i => Res.ok i w
      | .error f => Res.fatal f w := rfl

theorem run_getCommandBuffer_true (env : Env) (w : World) :
    getCommandBuffer true env w =
      if (env.reply w.trace.length).result = VK_SUCCESS then
        if (env.reply (w.trace.length + 1)).result = VK_SUCCESS then
          Res.ok (env.reply w.trace.length).handle
            { w with trace := w.trace ++
                [⟨.vkAllocateCommandBuffers w.command_pool VK_COMMAND_BUFFER_LEVEL_PRIMARY 1,
                    env.reply w.trace.length⟩,
                 ⟨.vkBeginCommandBuffer (env.reply w.trace.length).handle 0,
                    env.reply (w.trace.length + 1)⟩] }
        else
          Res.fatal Fatal.exit_failure
            { w with trace := w.trace ++
                [⟨.vkAllocateCommandBuffers w.command_pool VK_COMMAND_BUFFER_LEVEL_PRIMARY 1,
                    env.reply w.trace.length⟩,
                 ⟨.vkBeginCommandBuffer (env.reply w.trace.length).handle 0,
                    env.reply (w.trace.length + 1)⟩,
                 ⟨.vkBeginCommandBuffer (env.reply w.trace.length).handle 0,
                    env.reply (w.trace.length + 2)⟩] }
      else
        Res.fatal Fatal.exit_failure
          { w with trace := w.trace ++
              [⟨.vkAllocateCommandBuffers w.command_pool VK_COMMAND_BUFFER_LEVEL_PRIMARY 1,
                  env.reply w.trace.length⟩,
               ⟨.vkAllocateCommandBuffers w.command_pool VK_COMMAND_BUFFER_LEVEL_PRIMARY 1,
                  env.reply (w.trace.length + 1)⟩] } := by
  unfold getCommandBuffer
  simp only [run_bind, run_get_world, run_VK_CHECK_native, run_pure, if_true]
  by_cases h0 : (env.reply w.trace.length).result = VK_SUCCESS
  · by_cases h1 : (env.reply (w.trace.length + 1)).result = VK_SUCCESS
    · simp [h0, h1]
    · simp [h0, h1]
  · simp [h0]


/-- The outcomes of `flushCommandBuffer`: the assertion, then the four checked
calls in order, then the two releases. -/
theorem run_flushCommandBuffer (commandBuffer : Nat) (env : Env) (w : World) :
    flushCommandBuffer commandBuffer env w =
      if commandBuffer = VK_NULL_HANDLE then Res.fatal Fatal.assert_failed w
      else if (env.reply w.trace.length).result = VK_SUCCESS then
        if (env.reply (w.trace.length + 1)).result = VK_SUCCESS then
          if (env.reply (w.trace.length + 2)).result = VK_SUCCESS then
            if (env.reply (w.trace.length + 3)).result = VK_SUCCESS then
              Res.ok ()
                { w with trace := w.trace ++
                    [⟨.vkEndCommandBuffer commandBuffer, env.reply w.trace.length⟩,
                     ⟨.vkCreateFence 0, env.reply (w.trace.length + 1)⟩,
                     ⟨.vkQueueSubmit w.queue [commandBuffer] (env.reply (w.trace.length + 1)).handle,
                        env.reply (w.trace.length + 2)⟩,
                     ⟨.vkWaitForFences [(env.reply (w.trace.length + 1)).handle] true
                        DEFAULT_FENCE_TIMEOUT, env.reply (w.trace.length + 3)⟩,
                     ⟨.vkDestroyFence (env.reply (w.trace.length + 1)).handle,
                        env.reply (w.trace.length + 4)⟩,
                     ⟨.vkFreeCommandBuffers w.command_pool [commandBuffer],
                        env.reply (w.trace.length + 5)⟩] }
            else
              Res.fatal Fatal.exit_failure
                { w with trace := w.trace ++
                    [⟨.vkEndCommandBuffer commandBuffer, env.reply w.trace.length⟩,
                     ⟨.vkCreateFence 0, env.reply (w.trace.length + 1)⟩,
                     ⟨.vkQueueSubmit w.queue [commandBuffer] (env.reply (w.trace.length + 1)).handle,
                        env.reply (w.trace.length + 2)⟩,
                     ⟨.vkWaitForFences [(env.reply (w.trace.length + 1)).handle] true
                        DEFAULT_FENCE_TIMEOUT, env.reply (w.trace.length + 3)⟩,
                     ⟨.vkWaitForFences [(env.reply (w.trace.length + 1)).handle] true
                        DEFAULT_FENCE_TIMEOUT, env.reply (w.trace.length + 4)⟩] }
          else
            Res.fatal Fatal.exit_failure
              { w with trace := w.trace ++
                  [⟨.vkEndCommandBuffer commandBuffer, env.reply w.trace.length⟩,
                   ⟨.vkCreateFence 0, env.reply (w.trace.length + 1)⟩,
                   ⟨.vkQueueSubmit w.queue [commandBuffer] (env.reply (w.trace.length + 1)).handle,
                      env.reply (w.trace.length + 2)⟩,
                   ⟨.vkQueueSubmit w.queue [commandBuffer] (env.reply (w.trace.length + 1)).handle,
                      env.reply (w.trace.length + 3)⟩] }
        else
          Res.fatal Fatal.exit_failure
            { w with trace := w.trace ++
                [⟨.vkEndCommandBuffer commandBuffer, env.reply w.trace.length⟩,
                 ⟨.vkCreateFence 0, env.reply (w.trace.length + 1)⟩,
                 ⟨.vkCreateFence 0, env.reply (w.trace.length + 2)⟩] }
      else
        Res.fatal Fatal.exit_failure
          { w with trace := w.trace ++
              [⟨.vkEndCommandBuffer commandBuffer, env.reply w.trace.length⟩,
               ⟨.vkEndCommandBuffer commandBuffer, env.reply (w.trace.length + 1)⟩] } := by
  unfold flushCommandBuffer
  by_cases hcb : commandBuffer = VK_NULL_HANDLE
  · simp only [if_pos hcb, run_stop]
  · simp only [if_neg hcb, run_bind, run_get_world, run_VK_CHECK_native, run_native, run_pure]
    by_cases h0 : (env.reply w.trace.length).result = VK_SUCCESS
    · by_cases h1 : (env.reply (w.trace.length + 1)).result = VK_SUCCESS
      · by_cases h2 : (env.reply (w.trace.length + 2)).result = VK_SUCCESS
        · by_cases h3 : (env.reply (w.trace.length + 3)).result = VK_SUCCESS
          · simp [h0, h1, h2, h3]
          · simp [h0, h1, h2, h3]
        · simp [h0, h1, h2]
      · simp [h0, h1]
    · simp [h0]

set_option maxHeartbeats 4000000 in
/-- A run of `create_vertex_buffers` that returns: every checked call reported
success, the resolver found the four memory types, and the events are those of
`upload_events`. -/
theorem create_vertex_buffers_returned (vertices : List Nat) (verticesSize : Nat)
    (indices : List Nat) (indicesSize : Nat) (env : Env) (w : World) :
    (create_vertex_buffers vertices verticesSize indices indicesSize env w).returned = true →
    ∃ i1 i8 i15 i19 : Nat,
      getMemoryTypeIndex w.memory_properties
        (env.reply (w.trace.length + 1)).memoryRequirements.memoryTypeBits
        (VK_MEMORY_PROPERTY_HOST_VISIBLE_BIT ||| VK_MEMORY_PROPERTY_HOST_COHERENT_BIT) = .ok i1 ∧
      getMemoryTypeIndex w.memory_properties
        (env.reply (w.trace.length + 8)).memoryRequirements.memoryTypeBits
        (VK_MEMORY_PROPERTY_HOST_VISIBLE_BIT ||| VK_MEMORY_PROPERTY_HOST_COHERENT_BIT) = .ok i8 ∧
      getMemoryTypeIndex w.memory_properties
        (env.reply (w.trace.length + 15)).memoryRequirements.memoryTypeBits
        VK_MEMORY_PROPERTY_DEVICE_LOCAL_BIT = .ok i15 ∧
      getMemoryTypeIndex w.memory_properties
        (env.reply (w.trace.length + 19)).memoryRequirements.memoryTypeBits
        VK_MEMORY_PROPERTY_DEVICE_LOCAL_BIT = .ok i19 ∧
      (env.reply (w.trace.length + 28)).result = VK_SUCCESS ∧
      (env.reply (w.trace.length + 29)).result = VK_SUCCESS ∧
      (create_vertex_buffers vertices verticesSize indices indicesSize env w).world =
        { w with
          trace := w.trace ++ upload_events env w.trace.length w.command_pool w.queue
            vertices indices i1 i8 i15 i19,
          vertex_buffer := ⟨(env.reply (w.trace.length + 16)).handle,
            (env.reply (w.trace.length + 14)).handle⟩,
          index_buffer := ⟨(env.reply (w.trace.length + 20)).handle,
            (env.reply (w.trace.length + 18)).handle⟩ } := by
  unfold create_vertex_buffers
  simp only [run_bind, run_get_env, run_get_world, run_modify_world, run_VK_CHECK_native,
    run_native, run_pure, run_getMemoryTypeIndexM, run_getCommandBuffer_true,
    run_flushCommandBuffer]
  by_cases h0 : (env.reply w.trace.length).result = VK_SUCCESS
  case neg =>
    simp only [h0, if_false, List.length_append, List.length_cons, List.length_nil, List.append_assoc, List.cons_append, List.nil_append, Nat.add_assoc, Nat.reduceAdd, Nat.zero_add]
    simp [Res.returned]
  simp only [h0, if_true, List.length_append, List.length_cons, List.length_nil, List.append_assoc, List.cons_append, List.nil_append, Nat.add_assoc, Nat.reduceAdd, Nat.zero_add]
  cases hg1 : getMemoryTypeIndex w.memory_properties (env.reply (w.trace.length + 1)).memoryRequirements.memoryTypeBits (VK_MEMORY_PROPERTY_HOST_VISIBLE_BIT ||| VK_MEMORY_PROPERTY_HOST_COHERENT_BIT) with
  | error f =>
    simp only [List.length_append, List.length_cons, List.length_nil, List.append_assoc, List.cons_append, List.nil_append, Nat.add_assoc, Nat.reduceAdd, Nat.zero_add]
    simp [Res.returned]
  | ok i1 => ?_
  simp only [List.length_append, List.length_cons, List.length_nil, List.append_assoc, List.cons_append, List.nil_append, Nat.add_assoc, Nat.reduceAdd, Nat.zero_add]
  by_cases h2 : (env.reply (w.trace.length + 2)).result = VK_SUCCESS
  case neg =>
    simp only [h2, if_false, List.length_append, List.length_cons, List.length_nil, List.append_assoc, List.cons_append, List.nil_append, Nat.add_assoc, Nat.reduceAdd, Nat.zero_add]
    simp [Res.returned]
  simp only [h2, if_true, List.length_append, List.length_cons, List.length_nil, List.append_assoc, List.cons_append, List.nil_append, Nat.add_assoc, Nat.reduceAdd, Nat.zero_add]
  by_cases h3 : (env.reply (w.trace.length + 3)).result = VK_SUCCESS
  case neg =>
    simp only [h3, if_false, List.length_append, List.length_cons, List.length_nil, List.append_assoc, List.cons_append, List.nil_append, Nat.add_assoc, Nat.reduceAdd, Nat.zero_add]
    simp [Res.returned]
  simp only [h3, if_true, List.length_append, List.length_cons, List.length_nil, List.append_assoc, List.cons_append, List.nil_append, Nat.add_assoc, Nat.reduceAdd, Nat.zero_add]
  by_cases h6 : (env.reply (w.trace.length + 6)).result = VK_SUCCESS
  case neg =>
    simp only [h6, if_false, List.length_append, List.length_cons, List.length_nil, List.append_assoc, List.cons_append, List.nil_append, Nat.add_assoc, Nat.reduceAdd, Nat.zero_add]
    simp [Res.returned]
  simp only [h6, if_true, List.length_append, List.length_cons, List.length_nil, List.append_assoc, List.cons_append, List.nil_append, Nat.add_assoc, Nat.reduceAdd, Nat.zero_add]
  by_cases h7 : (env.reply (w.trace.length + 7)).result = VK_SUCCESS
  case neg =>
    simp only [h7, if_false, List.length_append, List.length_cons, List.length_nil, List.append_assoc, List.cons_append, List.nil_append, Nat.add_assoc, Nat.reduceAdd, Nat.zero_add]
    simp [Res.returned]
  simp only [h7, if_true, List.length_append, List.length_cons, List.length_nil, List.append_assoc, List.cons_append, List.nil_append, Nat.add_assoc, Nat.reduceAdd, Nat.zero_add]
  cases hg8 : getMemoryTypeIndex w.memory_properties (env.reply (w.trace.length + 8)).memoryRequirements.memoryTypeBits (VK_MEMORY_PROPERTY_HOST_VISIBLE_BIT ||| VK_MEMORY_PROPERTY_HOST_COHERENT_BIT) with
  | error f =>
    simp only [List.length_append, List.length_cons, List.length_nil, List.append_assoc, List.cons_append, List.nil_append, Nat.add_assoc, Nat.reduceAdd, Nat.zero_add]
    simp [Res.returned]
  | ok i8 => ?_
  simp only [List.length_append, List.length_cons, List.length_nil, List.append_assoc, List.cons_append, List.nil_append, Nat.add_assoc, Nat.reduceAdd, Nat.zero_add]
  by_cases h9 : (env.reply (w.trace.length + 9)).result = VK_SUCCESS
  case neg =>
    simp only [h9, if_false, List.length_append, List.length_cons, List.length_nil, List.append_assoc, List.cons_append, List.nil_append, Nat.add_assoc, Nat.reduceAdd, Nat.zero_add]
    simp [Res.returned]
  simp only [h9, if_true, List.length_append, List.length_cons, List.length_nil, List.append_assoc, List.cons_append, List.nil_append, Nat.add_assoc, Nat.reduceAdd, Nat.zero_add]
  by_cases h10 : (env.reply (w.trace.length + 10)).result = VK_SUCCESS
  case neg =>
    simp only [h10, if_false, List.length_append, List.length_cons, List.length_nil, List.append_assoc, List.cons_append, List.nil_append, Nat.add_assoc, Nat.reduceAdd, Nat.zero_add]
    simp [Res.returned]
  simp only [h10, if_true, List.length_append, List.length_cons, List.length_nil, List.append_assoc, List.cons_append, List.nil_append, Nat.add_assoc, Nat.reduceAdd, Nat.zero_add]
  by_cases h13 : (env.reply (w.trace.length + 13)).result = VK_SUCCESS
  case neg =>
    simp only [h13, if_false, List.length_append, List.length_cons, List.length_nil, List.append_assoc, List.cons_append, List.nil_append, Nat.add_assoc, Nat.reduceAdd, Nat.zero_add]
    simp [Res.returned]
  simp only [h13, if_true, List.length_append, List.length_cons, List.length_nil, List.append_assoc, List.cons_append, List.nil_append, Nat.add_assoc, Nat.reduceAdd, Nat.zero_add]
  by_cases h14 : (env.reply (w.trace.length + 14)).result = VK_SUCCESS
  case neg =>
    simp only [h14, if_false, List.length_append, List.length_cons, List.length_nil, List.append_assoc, List.cons_append, List.nil_append, Nat.add_assoc, Nat.reduceAdd, Nat.zero_add]
    simp [Res.returned]
  simp only [h14, if_true, List.length_append, List.length_cons, List.length_nil, List.append_assoc, List.cons_append, List.nil_append, Nat.add_assoc, Nat.reduceAdd, Nat.zero_add]
  cases hg15 : getMemoryTypeIndex w.memory_properties (env.reply (w.trace.length + 15)).memoryRequirements.memoryTypeBits VK_MEMORY_PROPERTY_DEVICE_LOCAL_BIT with
  | error f =>
    simp only [List.length_append, List.length_cons, List.length_nil, List.append_assoc, List.cons_append, List.nil_append, Nat.add_assoc, Nat.reduceAdd, Nat.zero_add]
    simp [Res.returned]
  | ok i15 => ?_
  simp only [List.length_append, List.length_cons, List.length_nil, List.append_assoc, List.cons_append, List.nil_append, Nat.add_assoc, Nat.reduceAdd, Nat.zero_add]
  by_cases h16 : (env.reply (w.trace.length + 16)).result = VK_SUCCESS
  case neg =>
    simp only [h16, if_false, List.length_append, List.length_cons, List.length_nil, List.append_assoc, List.cons_append, List.nil_append, Nat.add_assoc, Nat.reduceAdd, Nat.zero_add]
    simp [Res.returned]
  simp only [h16, if_true, List.length_append, List.length_cons, List.length_nil, List.append_assoc, List.cons_append, List.nil_append, Nat.add_assoc, Nat.reduceAdd, Nat.zero_add]
  by_cases h17 : (env.reply (w.trace.length + 17)).result = VK_SUCCESS
  case neg =>
    simp only [h17, if_false, List.length_append, List.length_cons, List.length_nil, List.append_assoc, List.cons_append, List.nil_append, Nat.add_assoc, Nat.reduceAdd, Nat.zero_add]
    simp [Res.returned]
  simp only [h17, if_true, List.length_append, List.length_cons, List.length_nil, List.append_assoc, List.cons_append, List.nil_append, Nat.add_assoc, Nat.reduceAdd, Nat.zero_add]
  by_cases h18 : (env.reply (w.trace.length + 18)).result = VK_SUCCESS
  case neg =>
    simp only [h18, if_false, List.length_append, List.length_cons, List.length_nil, List.append_assoc, List.cons_append, List.nil_append, Nat.add_assoc, Nat.reduceAdd, Nat.zero_add]
    simp [Res.returned]
  simp only [h18, if_true, List.length_append, List.length_cons, List.length_nil, List.append_assoc, List.cons_append, List.nil_append, Nat.add_assoc, Nat.reduceAdd, Nat.zero_add]
  cases hg19 : getMemoryTypeIndex w.memory_properties (env.reply (w.trace.length + 19)).memoryRequirements.memoryTypeBits VK_MEMORY_PROPERTY_DEVICE_LOCAL_BIT with
  | error f =>
    simp only [List.length_append, List.length_cons, List.length_nil, List.append_assoc, List.cons_append, List.nil_append, Nat.add_assoc, Nat.reduceAdd, Nat.zero_add]
    simp [Res.returned]
  | ok i19 => ?_
  simp only [List.length_append, List.length_cons, List.length_nil, List.append_assoc, List.cons_append, List.nil_append, Nat.add_assoc, Nat.reduceAdd, Nat.zero_add]
  by_cases h20 : (env.reply (w.trace.length + 20)).result = VK_SUCCESS
  case neg =>
    simp only [h20, if_false, List.length_append, List.length_cons, List.length_nil, List.append_assoc, List.cons_append, List.nil_append, Nat.add_assoc, Nat.reduceAdd, Nat.zero_add]
    simp [Res.returned]
  simp only [h20, if_true, List.length_append, List.length_cons, List.length_nil, List.append_assoc, List.cons_append, List.nil_append, Nat.add_assoc, Nat.reduceAdd, Nat.zero_add]
  by_cases h21 : (env.reply (w.trace.length + 21)).result = VK_SUCCESS
  case neg =>
    simp only [h21, if_false, List.length_append, List.length_cons, List.length_nil, List.append_assoc, List.cons_append, List.nil_append, Nat.add_assoc, Nat.reduceAdd, Nat.zero_add]
    simp [Res.returned]
  simp only [h21, if_true, List.length_append, List.length_cons, List.length_nil, List.append_assoc, List.cons_append, List.nil_append, Nat.add_assoc, Nat.reduceAdd, Nat.zero_add]
  by_cases h22 : (env.reply (w.trace.length + 22)).result = VK_SUCCESS
  case neg =>
    simp only [h22, if_false, List.length_append, List.length_cons, List.length_nil, List.append_assoc, List.cons_append, List.nil_append, Nat.add_assoc, Nat.reduceAdd, Nat.zero_add]
    simp [Res.returned]
  simp only [h22, if_true, List.length_append, List.length_cons, List.length_nil, List.append_assoc, List.cons_append, List.nil_append, Nat.add_assoc, Nat.reduceAdd, Nat.zero_add]
  by_cases h23 : (env.reply (w.trace.length + 23)).result = VK_SUCCESS
  case neg =>
    simp only [h23, if_false, List.length_append, List.length_cons, List.length_nil, List.append_assoc, List.cons_append, List.nil_append, Nat.add_assoc, Nat.reduceAdd, Nat.zero_add]
    simp [Res.returned]
  simp only [h23, if_true, List.length_append, List.length_cons, List.length_nil, List.append_assoc, List.cons_append, List.nil_append, Nat.add_assoc, Nat.reduceAdd, Nat.zero_add]
  by_cases hcb : (env.reply (w.trace.length + 22)).handle = VK_NULL_HANDLE
  case pos =>
    simp only [hcb, if_true]
    simp [Res.returned]
  simp only [hcb, if_false, List.length_append, List.length_cons, List.length_nil, List.append_assoc, List.cons_append, List.nil_append, Nat.add_assoc, Nat.reduceAdd, Nat.zero_add]
  by_cases h26 : (env.reply (w.trace.length + 26)).result = VK_SUCCESS
  case neg =>
    simp only [h26, if_false, List.length_append, List.length_cons, List.length_nil, List.append_assoc, List.cons_append, List.nil_append, Nat.add_assoc, Nat.reduceAdd, Nat.zero_add]
    simp [Res.returned]
  simp only [h26, if_true, List.length_append, List.length_cons, List.length_nil, List.append_assoc, List.cons_append, List.nil_append, Nat.add_assoc, Nat.reduceAdd, Nat.zero_add]
  by_cases h27 : (env.reply (w.trace.length + 27)).result = VK_SUCCESS
  case neg =>
    simp only [h27, if_false, List.length_append, List.length_cons, List.length_nil, List.append_assoc, List.cons_append, List.nil_append, Nat.add_assoc, Nat.reduceAdd, Nat.zero_add]
    simp [Res.returned]
  simp only [h27, if_true, List.length_append, List.length_cons, List.length_nil, List.append_assoc, List.cons_append, List.nil_append, Nat.add_assoc, Nat.reduceAdd, Nat.zero_add]
  by_cases h28 : (env.reply (w.trace.length + 28)).result = VK_SUCCESS
  case neg =>
    simp only [h28, if_false, List.length_append, List.length_cons, List.length_nil, List.append_assoc, List.cons_append, List.nil_append, Nat.add_assoc, Nat.reduceAdd, Nat.zero_add]
    simp [Res.returned]
  simp only [h28, if_true, List.length_append, List.length_cons, List.length_nil, List.append_assoc, List.cons_append, List.nil_append, Nat.add_assoc, Nat.reduceAdd, Nat.zero_add]
  by_cases h29 : (env.reply (w.trace.length + 29)).result = VK_SUCCESS
  case neg =>
    simp only [h29, if_false, List.length_append, List.length_cons, List.length_nil, List.append_assoc, List.cons_append, List.nil_append, Nat.add_assoc, Nat.reduceAdd, Nat.zero_add]
    simp [Res.returned]
  simp only [h29, if_true, List.length_append, List.length_cons, List.length_nil, List.append_assoc, List.cons_append, List.nil_append, Nat.add_assoc, Nat.reduceAdd, Nat.zero_add]
  intro _
  refine ⟨i1, i8, i15, i19, ?_⟩
  simp [Res.world, upload_events]

/-! ## The command buffer executor -/

/-- C9: for a non-null command buffer, `flushCommandBuffer` returns normally
exactly when the end of recording, the fence creation, the submission and the
fence wait all report success; the calls it has then made are, in this
order: end recording, create one fence with flags 0, submit that one command
buffer to the queue with that fence, wait on that fence, destroy that fence,
free that command buffer. -/
theorem flushCommandBuffer_sequence (env : Env) (w : World) (commandBuffer : Nat)
    (hcb : commandBuffer ≠ VK_NULL_HANDLE) :
    ((flushCommandBuffer commandBuffer env w).returned = true ↔
      (env.reply w.trace.length).result = VK_SUCCESS ∧
      (env.reply (w.trace.length + 1)).result = VK_SUCCESS ∧
      (env.reply (w.trace.length + 2)).result = VK_SUCCESS ∧
      (env.reply (w.trace.length + 3)).result = VK_SUCCESS) ∧
    ((flushCommandBuffer commandBuffer env w).returned = true →
      (flushCommandBuffer commandBuffer env w).world.trace = w.trace ++
        [⟨.vkEndCommandBuffer commandBuffer, env.reply w.trace.length⟩,
         ⟨.vkCreateFence 0, env.reply (w.trace.length + 1)⟩,
         ⟨.vkQueueSubmit w.queue [commandBuffer] (env.reply (w.trace.length + 1)).handle,
            env.reply (w.trace.length + 2)⟩,
         ⟨.vkWaitForFences [(env.reply (w.trace.length + 1)).handle] true DEFAULT_FENCE_TIMEOUT,
            env.reply (w.trace.length + 3)⟩,
         ⟨.vkDestroyFence (env.reply (w.trace.length + 1)).handle,
            env.reply (w.trace.length + 4)⟩,
         ⟨.vkFreeCommandBuffers w.command_pool [commandBuffer],
            env.reply (w.trace.length + 5)⟩]) ∧
    ((flushCommandBuffer commandBuffer env w).returned = false →
      ∀ e ∈ (flushCommandBuffer commandBuffer env w).world.trace.drop w.trace.length,
        ∀ fence pool : Nat, ∀ buffers : List Nat,
          e.call ≠ .vkDestroyFence fence ∧ e.call ≠ .vkFreeCommandBuffers pool buffers) := by
  rw [run_flushCommandBuffer, if_neg hcb]
  by_cases h0 : (env.reply w.trace.length).result = VK_SUCCESS
  · by_cases h1 : (env.reply (w.trace.length + 1)).result = VK_SUCCESS
    · by_cases h2 : (env.reply (w.trace.length + 2)).result = VK_SUCCESS
      · by_cases h3 : (env.reply (w.trace.length + 3)).result = VK_SUCCESS
        · simp [h0, h1, h2, h3, Res.returned, Res.world]
        · simp [h0, h1, h2, h3, Res.returned, Res.world]
      · simp [h0, h1, h2, Res.returned, Res.world]
    · simp [h0, h1, Res.returned, Res.world]
  · simp [h0, Res.returned, Res.world]

theorem flushCommandBuffer_sequence_witness :
    (5 : Nat) ≠ VK_NULL_HANDLE ∧
    (flushCommandBuffer 5 sample_env (World.initial false)).returned = true ∧
    (flushCommandBuffer 5 sample_env (World.initial false)).world.trace.map Event.call =
      [.vkEndCommandBuffer 5, .vkCreateFence 0, .vkQueueSubmit 0 [5] 101,
       .vkWaitForFences [101] true DEFAULT_FENCE_TIMEOUT, .vkDestroyFence 101,
       .vkFreeCommandBuffers 0 [5]] :=
  have h := flushCommandBuffer_sequence sample_env (World.initial false) 5 (by decide)
  ⟨by decide, h.1.2 (by decide), by rw [h.2.1 (h.1.2 (by decide))]; rfl⟩


/-! ## The device provisioner -/

/-- The selection loop started with `NO_QUEUE_FAMILY` ends with
`NO_QUEUE_FAMILY` exactly when no entry is graphics-capable. -/
theorem init_vulkan_queue_family_loop_sentinel
    (queue_families : List VkQueueFamilyProperties)
    (hlen : queue_families.length ≤ INT_MAX) :
    init_vulkan_queue_family_loop queue_families 0 NO_QUEUE_FAMILY = NO_QUEUE_FAMILY ↔
      ∀ k : Nat, ¬ GraphicsCapableAt queue_families k := by
  have hbound : 0 + queue_families.length ≤ UINT32_MODULUS := by
    have : INT_MAX ≤ UINT32_MODULUS := by decide
    omega
  obtain ⟨h1, h2⟩ := init_vulkan_queue_family_loop_spec queue_families 0 NO_QUEUE_FAMILY hbound
  constructor
  · intro hsel k hk
    obtain ⟨k1, hk1, hk2, _⟩ := h2 ⟨k, hk⟩
    have hlt := graphicsCapableAt_lt queue_families k1 hk2
    have hmax : INT_MAX < NO_QUEUE_FAMILY := by decide
    rw [hsel] at hk1
    omega
  · exact h1

/-- C8 as amended: started with `preferred_queue_family = NO_QUEUE_FAMILY`,
on a run in which the creation of the instance and the two device enumerations
report success and at least one physical device is enumerated, `init_vulkan`
stops fatally without a `vkCreateDevice` call exactly when no entry of the
queue-family table has the graphics bit (the empty table included), and the
stop is `exit(EXIT_FAILURE)`; otherwise it calls `vkCreateDevice` with one queue
of the selected family, whose index is below the family count. -/
theorem init_vulkan_fatal_iff_no_graphics_family (env : Env) (w : World)
    (hstart : w.preferred_queue_family = NO_QUEUE_FAMILY)
    (hlen : env.queue_families.length ≤ INT_MAX)
    (hdev : env.physical_devices ≠ [])
    (h0 : (env.reply w.trace.length).result = VK_SUCCESS)
    (h1 : (env.reply (w.trace.length + 1)).result = VK_SUCCESS)
    (h2 : (env.reply (w.trace.length + 2)).result = VK_SUCCESS) :
    ((((init_vulkan env w).returned = false ∧
        ∀ e ∈ (init_vulkan env w).world.trace.drop w.trace.length,
          ∀ (pd : Nat) (queues : List VkDeviceQueueCreateInfo) (exts : List DeviceExtension),
            e.call ≠ .vkCreateDevice pd queues exts)) ↔
      ∀ k : Nat, ¬ GraphicsCapableAt env.queue_families k) ∧
    ((∀ k : Nat, ¬ GraphicsCapableAt env.queue_families k) →
      ∃ w1 : World, init_vulkan env w = Res.fatal Fatal.exit_failure w1) ∧
    ((∃ k : Nat, GraphicsCapableAt env.queue_families k) →
      init_vulkan_queue_family_loop env.queue_families 0 NO_QUEUE_FAMILY <
        env.queue_families.length ∧
      ∃ e ∈ (init_vulkan env w).world.trace.drop w.trace.length,
        ∃ (pd : Nat) (exts : List DeviceExtension),
          e.call = .vkCreateDevice pd
            [{ flags := 0,
               queueFamilyIndex :=
                 init_vulkan_queue_family_loop env.queue_families 0 NO_QUEUE_FAMILY,
               queueCount := 1, pQueuePriorities := [1] }] exts) := by
  have hsent := init_vulkan_queue_family_loop_sentinel env.queue_families hlen
  have hrun : init_vulkan env w =
      if init_vulkan_queue_family_loop env.queue_families 0 NO_QUEUE_FAMILY = NO_QUEUE_FAMILY then
        Res.fatal Fatal.exit_failure
          { w with
            trace := w.trace ++ [⟨.vkCreateInstance, env.reply w.trace.length⟩,
              ⟨.vkEnumeratePhysicalDevices none, env.reply (w.trace.length + 1)⟩,
              ⟨.vkEnumeratePhysicalDevices
                  (some (min 32 (env.physical_devices.length % UINT32_MODULUS))),
                env.reply (w.trace.length + 2)⟩],
            vk_instance := (env.reply w.trace.length).handle,
            physical_device := (env.physical_devices.take
              (min 32 (env.physical_devices.length % UINT32_MODULUS))).getD 0
                env.indeterminate_physical_device,
            memory_properties := env.memory_properties,
            preferred_queue_family :=
              init_vulkan_queue_family_loop env.queue_families 0 NO_QUEUE_FAMILY }
      else
        create_device env
          { w with
            trace := w.trace ++ [⟨.vkCreateInstance, env.reply w.trace.length⟩,
              ⟨.vkEnumeratePhysicalDevices none, env.reply (w.trace.length + 1)⟩,
              ⟨.vkEnumeratePhysicalDevices
                  (some (min 32 (env.physical_devices.length % UINT32_MODULUS))),
                env.reply (w.trace.length + 2)⟩],
            vk_instance := (env.reply w.trace.length).handle,
            physical_device := (env.physical_devices.take
              (min 32 (env.physical_devices.length % UINT32_MODULUS))).getD 0
                env.indeterminate_physical_device,
            memory_properties := env.memory_properties,
            preferred_queue_family :=
              init_vulkan_queue_family_loop env.queue_families 0 NO_QUEUE_FAMILY } := by
    unfold init_vulkan print_implementation_information create_instance choose_physical_device
      print_device_information
    simp only [run_bind, run_get_env, run_get_world, run_modify_world, run_VK_CHECK_native,
      run_pure, run_stop, h0, h1, h2, hstart, if_true, List.length_append, List.length_cons,
      List.length_nil, List.append_assoc, List.cons_append, List.nil_append, Nat.add_assoc,
      Nat.reduceAdd, Nat.zero_add]
    by_cases hs : init_vulkan_queue_family_loop env.queue_families 0 NO_QUEUE_FAMILY =
        NO_QUEUE_FAMILY
    · simp only [hs, if_true]
      rfl
    · simp only [hs, if_false]
      cases w.be_noisy <;> rfl
  rw [hrun]
  by_cases hs : init_vulkan_queue_family_loop env.queue_families 0 NO_QUEUE_FAMILY =
      NO_QUEUE_FAMILY
  · have hnone := hsent.1 hs
    simp only [hs, if_true]
    refine ⟨⟨fun _ => hnone, fun _ => ?_⟩, fun _ => ⟨_, rfl⟩, fun hsome => ?_⟩
    · simp [Res.returned, Res.world]
    · obtain ⟨k, hk⟩ := hsome
      exact absurd hk (hnone k)
  · have hsome : ∃ k : Nat, GraphicsCapableAt env.queue_families k := by
      by_contra hcon
      exact hs (hsent.2 (fun k hk => hcon ⟨k, hk⟩))
    have hbound : 0 + env.queue_families.length ≤ UINT32_MODULUS := by
      have : INT_MAX ≤ UINT32_MODULUS := by decide
      omega
    obtain ⟨k, hk1, hk2, _⟩ :=
      (init_vulkan_queue_family_loop_spec env.queue_families 0 NO_QUEUE_FAMILY hbound).2 hsome
    have hklt := graphicsCapableAt_lt env.queue_families k hk2
    have hnot : ¬ ∀ k : Nat, ¬ GraphicsCapableAt env.queue_families k :=
      fun hall => hs (hsent.2 hall)
    simp only [hs, if_false]
    unfold create_device
    simp only [run_bind, run_get_world, run_modify_world, run_VK_CHECK_native, run_native,
      run_pure, List.length_append, List.length_cons, List.length_nil, List.append_assoc,
      List.cons_append, List.nil_append, Nat.add_assoc, Nat.reduceAdd, Nat.zero_add]
    by_cases h3 : (env.reply (w.trace.length + 3)).result = VK_SUCCESS
    · simp only [h3, if_true, List.length_append, List.length_cons, List.length_nil,
        List.append_assoc, List.cons_append, List.nil_append, Nat.add_assoc, Nat.reduceAdd]
      by_cases h5 : (env.reply (w.trace.length + 5)).result = VK_SUCCESS
      · simp only [h5, if_true]
        refine ⟨⟨fun h => ?_, fun h => absurd h hnot⟩, fun h => absurd h hnot,
          fun _ => ⟨by omega, ?_⟩⟩
        · simp [Res.returned] at h
        · simp [Res.world]
      · simp only [h5, if_false]
        refine ⟨⟨fun h => ?_, fun h => absurd h hnot⟩, fun h => absurd h hnot,
          fun _ => ⟨by omega, ?_⟩⟩
        · simp [Res.world] at h
        · simp [Res.world]
    · simp only [h3, if_false]
      refine ⟨⟨fun h => ?_, fun h => absurd h hnot⟩, fun h => absurd h hnot,
        fun _ => ⟨by omega, ?_⟩⟩
      · simp [Res.world] at h
      · simp [Res.world]

theorem init_vulkan_fatal_iff_no_graphics_family_witness :
    (World.initial false).preferred_queue_family = NO_QUEUE_FAMILY ∧
    sample_env.queue_families.length ≤ INT_MAX ∧
    sample_env.physical_devices ≠ [] ∧
    (sample_env.reply (World.initial false).trace.length).result = VK_SUCCESS ∧
    (sample_env.reply ((World.initial false).trace.length + 1)).result = VK_SUCCESS ∧
    (sample_env.reply ((World.initial false).trace.length + 2)).result = VK_SUCCESS ∧
    (init_vulkan sample_env (World.initial false)).returned = true ∧
    init_vulkan_queue_family_loop sample_env.queue_families 0 NO_QUEUE_FAMILY <
      sample_env.queue_families.length ∧
    ∃ e ∈ (init_vulkan sample_env (World.initial false)).world.trace.drop
        (World.initial false).trace.length,
      ∃ (pd : Nat) (exts : List DeviceExtension),
        e.call = .vkCreateDevice pd
          [{ flags := 0,
             queueFamilyIndex :=
               init_vulkan_queue_family_loop sample_env.queue_families 0 NO_QUEUE_FAMILY,
             queueCount := 1, pQueuePriorities := [1] }] exts :=
  have h := init_vulkan_fatal_iff_no_graphics_family sample_env (World.initial false)
    rfl (by decide) (by decide) (by decide) (by decide) (by decide)
  ⟨rfl, by decide, by decide, by decide, by decide, by decide, by rfl,
    h.2.2 ⟨0, ⟨1, 1⟩, rfl, by decide⟩⟩

/-- C8 as stated fails: started with `preferred_queue_family = NO_QUEUE_FAMILY`
and a queue-family table whose entry 0 has the graphics bit, when
`vkCreateInstance` reports `VK_ERROR_INITIALIZATION_FAILED` the run ends fatally
after the two `vkCreateInstance` calls of the check, without a `vkCreateDevice`
call; so a fatal stop before the logical device is created does not imply that
no entry has the graphics bit. -/
theorem init_vulkan_exits_when_instance_creation_fails :
    (World.initial false).preferred_queue_family = NO_QUEUE_FAMILY ∧
    GraphicsCapableAt (sample_env_with 0 VK_ERROR_INITIALIZATION_FAILED).queue_families 0 ∧
    (init_vulkan (sample_env_with 0 VK_ERROR_INITIALIZATION_FAILED)
      (World.initial false)).returned = false ∧
    ((init_vulkan (sample_env_with 0 VK_ERROR_INITIALIZATION_FAILED)
      (World.initial false)).world.trace.drop (World.initial false).trace.length).map
        (fun e => (e.call, e.reply.result)) =
      [(.vkCreateInstance, VK_ERROR_INITIALIZATION_FAILED), (.vkCreateInstance, VK_SUCCESS)] ∧
    ¬ (((init_vulkan (sample_env_with 0 VK_ERROR_INITIALIZATION_FAILED)
          (World.initial false)).returned = false ∧
        ∀ e ∈ (init_vulkan (sample_env_with 0 VK_ERROR_INITIALIZATION_FAILED)
            (World.initial false)).world.trace.drop (World.initial false).trace.length,
          ∀ (pd : Nat) (queues : List VkDeviceQueueCreateInfo) (exts : List DeviceExtension),
            e.call ≠ .vkCreateDevice pd queues exts) ↔
      ∀ k : Nat,
        ¬ GraphicsCapableAt (sample_env_with 0 VK_ERROR_INITIALIZATION_FAILED).queue_families k) := by
  have hgraphics :
      GraphicsCapableAt (sample_env_with 0 VK_ERROR_INITIALIZATION_FAILED).queue_families 0 :=
    ⟨⟨1, 1⟩, rfl, by decide⟩
  have hret : (init_vulkan (sample_env_with 0 VK_ERROR_INITIALIZATION_FAILED)
      (World.initial false)).returned = false := by decide
  have htrace : (init_vulkan (sample_env_with 0 VK_ERROR_INITIALIZATION_FAILED)
      (World.initial false)).world.trace.drop (World.initial false).trace.length =
      [⟨.vkCreateInstance, (sample_env_with 0 VK_ERROR_INITIALIZATION_FAILED).reply 0⟩,
       ⟨.vkCreateInstance, (sample_env_with 0 VK_ERROR_INITIALIZATION_FAILED).reply 1⟩] := by
    decide
  refine ⟨rfl, hgraphics, hret, by decide, fun hiff => ?_⟩
  refine hiff.1 ⟨hret, ?_⟩ 0 hgraphics
  intro e he pd queues exts
  rw [htrace] at he
  simp only [List.mem_cons, List.mem_singleton, List.not_mem_nil, or_false] at he
  rcases he with he | he <;> rw [he] <;> simp

/-! ## Ordering of the releases -/

theorem upload_events_length (env : Env) (n command_pool queue : Nat)
    (vertices indices : List Nat) (i1 i8 i15 i19 : Nat) :
    (upload_events env n command_pool queue vertices indices i1 i8 i15 i19).length = 36 := rfl

set_option maxHeartbeats 4000000 in
/-- C10: on every run of `prepare_vulkan` that returns, the trace splits at a
successful `vkWaitForFences` on the fence of the copy submission: the two copy
commands, the bindings of the staging memories and the submission come before
it; no `vkDestroyBuffer`, `vkFreeMemory` or `vkGetBufferDeviceAddress` comes
before it; the destruction of both staging buffers, the freeing of both staging
memories and the address reads of both resident buffers come after it. -/
theorem prepare_vulkan_releases_after_fence_wait (env : Env) (w : World)
    (hret : (prepare_vulkan env w).returned = true) :
    ∃ (before after : List Event) (commands fence : Nat)
      (vertex_staging index_staging : buffer) (wait_reply : Reply),
      (prepare_vulkan env w).world.trace =
        w.trace ++ before ++
          [⟨.vkWaitForFences [fence] true DEFAULT_FENCE_TIMEOUT, wait_reply⟩] ++ after ∧
      wait_reply.result = VK_SUCCESS ∧
      (∃ r : Reply, (⟨.vkBindBufferMemory vertex_staging.buf vertex_staging.mem 0, r⟩ : Event)
        ∈ before) ∧
      (∃ r : Reply, (⟨.vkBindBufferMemory index_staging.buf index_staging.mem 0, r⟩ : Event)
        ∈ before) ∧
      (∃ r : Reply, (⟨.vkCmdCopyBuffer commands vertex_staging.buf
          (prepare_vulkan env w).world.vertex_buffer.buf
          [{ srcOffset := 0, dstOffset := 0, size := env.sizeof_pointer }], r⟩ : Event) ∈ before) ∧
      (∃ r : Reply, (⟨.vkCmdCopyBuffer commands index_staging.buf
          (prepare_vulkan env w).world.index_buffer.buf
          [{ srcOffset := 0, dstOffset := 0, size := env.sizeof_pointer }], r⟩ : Event) ∈ before) ∧
      (∃ r : Reply, (⟨.vkQueueSubmit w.queue [commands] fence, r⟩ : Event) ∈ before ∧
        r.result = VK_SUCCESS) ∧
      (∀ e ∈ before, ∀ b : Nat, e.call ≠ .vkDestroyBuffer b ∧ e.call ≠ .vkFreeMemory b ∧
        e.call ≠ .vkGetBufferDeviceAddress b) ∧
      (∃ r : Reply, (⟨.vkDestroyBuffer vertex_staging.buf, r⟩ : Event) ∈ after) ∧
      (∃ r : Reply, (⟨.vkDestroyBuffer index_staging.buf, r⟩ : Event) ∈ after) ∧
      (∃ r : Reply, (⟨.vkFreeMemory vertex_staging.mem, r⟩ : Event) ∈ after) ∧
      (∃ r : Reply, (⟨.vkFreeMemory index_staging.mem, r⟩ : Event) ∈ after) ∧
      (∃ r : Reply, (⟨.vkGetBufferDeviceAddress (prepare_vulkan env w).world.vertex_buffer.buf,
        r⟩ : Event) ∈ after) ∧
      (∃ r : Reply, (⟨.vkGetBufferDeviceAddress (prepare_vulkan env w).world.index_buffer.buf,
        r⟩ : Event) ∈ after) := by
  have hup := create_vertex_buffers_returned vertices sizeof_vertices indices sizeof_indices env w
  revert hret
  unfold prepare_vulkan
  simp only [run_bind]
  cases hc : create_vertex_buffers vertices sizeof_vertices indices sizeof_indices env w with
  | fatal f w1 => simp [Res.returned]
  | ok u w1 =>
    rw [hc] at hup
    obtain ⟨i1, i8, i15, i19, _, _, _, _, hsubmit, hwait, hw1⟩ := hup rfl
    simp only [Res.world] at hw1
    subst hw1
    simp only [run_get_world, run_native, run_pure, List.length_append,
      List.append_assoc, upload_events_length, Nat.add_assoc, Nat.reduceAdd]
    by_cases hproc : (env.reply (w.trace.length + 38)).handle = 0
    · simp [hproc, Res.returned, run_stop]
    · simp only [hproc, if_false, run_bind, run_native, run_pure, List.length_append,
        List.append_assoc, upload_events_length, Nat.add_assoc, Nat.reduceAdd, List.length_cons,
        List.length_nil, List.cons_append, List.nil_append]
      intro _
      refine ⟨(upload_events env w.trace.length w.command_pool w.queue vertices indices
          i1 i8 i15 i19).take 29,
        (upload_events env w.trace.length w.command_pool w.queue vertices indices
          i1 i8 i15 i19).drop 30 ++
          [⟨.vkGetBufferDeviceAddress (env.reply (w.trace.length + 14)).handle,
              env.reply (w.trace.length + 36)⟩,
           ⟨.vkGetBufferDeviceAddress (env.reply (w.trace.length + 18)).handle,
              env.reply (w.trace.length + 37)⟩,
           ⟨.vkGetInstanceProcAddr "vkGetAccelerationStructureBuildSizesKHR",
              env.reply (w.trace.length + 38)⟩,
           ⟨.getAccelerationStructureBuildSizes VK_ACCELERATION_STRUCTURE_BUILD_TYPE_DEVICE_KHR
              { type := VK_ACCELERATION_STRUCTURE_TYPE_TOP_LEVEL_KHR,
                flags := VK_BUILD_ACCELERATION_STRUCTURE_PREFER_FAST_TRACE_BIT_KHR,
                mode := 0,
                srcAccelerationStructure := VK_NULL_HANDLE,
                dstAccelerationStructure := VK_NULL_HANDLE,
                geometryCount := 1,
                pGeometries :=
                  [{ geometryType := VK_GEOMETRY_TYPE_TRIANGLES_KHR,
                     triangles :=
                       { vertexFormat := VK_FORMAT_R32G32B32_SFLOAT,
                         vertexData := (env.reply (w.trace.length + 36)).handle,
                         vertexStride := sizeof_Vertex,
                         maxVertex := 2,
                         indexType := VK_INDEX_TYPE_UINT32,
                         indexData := (env.reply (w.trace.length + 37)).handle,
                         transformData := 0 },
                     flags := VK_GEOMETRY_OPAQUE_BIT_KHR }],
                ppGeometries := 0,
                scratchData := 0 } [0], env.reply (w.trace.length + 39)⟩],
        (env.reply (w.trace.length + 22)).handle, (env.reply (w.trace.length + 27)).handle,
        ⟨(env.reply (w.trace.length + 2)).handle, (env.reply w.trace.length).handle⟩,
        ⟨(env.reply (w.trace.length + 9)).handle, (env.reply (w.trace.length + 7)).handle⟩,
        env.reply (w.trace.length + 29), ?_, hwait,
        ⟨env.reply (w.trace.length + 6), ?_⟩, ⟨env.reply (w.trace.length + 13), ?_⟩,
        ⟨env.reply (w.trace.length + 24), ?_⟩, ⟨env.reply (w.trace.length + 25), ?_⟩,
        ⟨env.reply (w.trace.length + 28), ?_, hsubmit⟩, ?_,
        ⟨env.reply (w.trace.length + 32), ?_⟩, ⟨env.reply (w.trace.length + 33), ?_⟩,
        ⟨env.reply (w.trace.length + 34), ?_⟩, ⟨env.reply (w.trace.length + 35), ?_⟩,
        ⟨env.reply (w.trace.length + 36), ?_⟩, ⟨env.reply (w.trace.length + 37), ?_⟩⟩
      all_goals simp [Res.world, upload_events]

theorem prepare_vulkan_releases_after_fence_wait_witness :
    (prepare_vulkan sample_env sample_world).returned = true ∧
    ∃ (before after : List Event) (commands fence : Nat)
      (vertex_staging index_staging : buffer) (wait_reply : Reply),
      (prepare_vulkan sample_env sample_world).world.trace =
        sample_world.trace ++ before ++
          [⟨.vkWaitForFences [fence] true DEFAULT_FENCE_TIMEOUT, wait_reply⟩] ++ after ∧
      wait_reply.result = VK_SUCCESS ∧
      (∃ r : Reply, (⟨.vkBindBufferMemory vertex_staging.buf vertex_staging.mem 0, r⟩ : Event)
        ∈ before) ∧
      (∃ r : Reply, (⟨.vkBindBufferMemory index_staging.buf index_staging.mem 0, r⟩ : Event)
        ∈ before) ∧
      (∃ r : Reply, (⟨.vkCmdCopyBuffer commands vertex_staging.buf
          (prepare_vulkan sample_env sample_world).world.vertex_buffer.buf
          [{ srcOffset := 0, dstOffset := 0, size := sample_env.sizeof_pointer }], r⟩ : Event) ∈ before) ∧
      (∃ r : Reply, (⟨.vkCmdCopyBuffer commands index_staging.buf
          (prepare_vulkan sample_env sample_world).world.index_buffer.buf
          [{ srcOffset := 0, dstOffset := 0, size := sample_env.sizeof_pointer }], r⟩ : Event) ∈ before) ∧
      (∃ r : Reply, (⟨.vkQueueSubmit sample_world.queue [commands] fence, r⟩ : Event) ∈ before ∧
        r.result = VK_SUCCESS) ∧
      (∀ e ∈ before, ∀ b : Nat, e.call ≠ .vkDestroyBuffer b ∧ e.call ≠ .vkFreeMemory b ∧
        e.call ≠ .vkGetBufferDeviceAddress b) ∧
      (∃ r : Reply, (⟨.vkDestroyBuffer vertex_staging.buf, r⟩ : Event) ∈ after) ∧
      (∃ r : Reply, (⟨.vkDestroyBuffer index_staging.buf, r⟩ : Event) ∈ after) ∧
      (∃ r : Reply, (⟨.vkFreeMemory vertex_staging.mem, r⟩ : Event) ∈ after) ∧
      (∃ r : Reply, (⟨.vkFreeMemory index_staging.mem, r⟩ : Event) ∈ after) ∧
      (∃ r : Reply, (⟨.vkGetBufferDeviceAddress (prepare_vulkan sample_env sample_world).world.vertex_buffer.buf,
        r⟩ : Event) ∈ after) ∧
      (∃ r : Reply, (⟨.vkGetBufferDeviceAddress (prepare_vulkan sample_env sample_world).world.index_buffer.buf,
        r⟩ : Event) ∈ after) :=
  have h : (prepare_vulkan sample_env sample_world).returned = true := by rfl
  ⟨h, prepare_vulkan_releases_after_fence_wait sample_env sample_world h⟩


/-! ## Memory types and usages of the uploader -/

/-- An index returned by the resolver is below the count, in the mask, and
carries every required flag. -/
theorem getMemoryTypeIndex_ok_spec (mp : VkPhysicalDeviceMemoryProperties)
    (type_bits properties i : Nat) (hcount : mp.memoryTypeCount ≤ 32)
    (h : getMemoryTypeIndex mp type_bits properties = .ok i) :
    i < mp.memoryTypeCount ∧ MemoryTypeMatches mp type_bits properties i := by
  have hspec := getMemoryTypeIndex_loop_spec mp type_bits properties mp.memoryTypeCount 0
    (by omega)
  unfold getMemoryTypeIndex at h
  rw [h] at hspec
  obtain ⟨_, h2, h3, _⟩ := hspec
  exact ⟨by omega, h3⟩

/-- A flag given by a single bit is set when that bit of the flags is set. -/
theorem flag_set_of_testBit (flags b : Nat) (h : flags.testBit b = true) :
    flags &&& 2 ^ b ≠ 0 := by
  rw [Nat.and_two_pow, h]
  simp

theorem staging_type_spec (mp : VkPhysicalDeviceMemoryProperties) (type_bits i : Nat)
    (hcount : mp.memoryTypeCount ≤ 32)
    (h : getMemoryTypeIndex mp type_bits
      (VK_MEMORY_PROPERTY_HOST_VISIBLE_BIT ||| VK_MEMORY_PROPERTY_HOST_COHERENT_BIT) = .ok i) :
    type_bits.testBit i = true ∧
    (mp.memoryTypes i).propertyFlags &&& VK_MEMORY_PROPERTY_HOST_VISIBLE_BIT ≠ 0 ∧
    (mp.memoryTypes i).propertyFlags &&& VK_MEMORY_PROPERTY_HOST_COHERENT_BIT ≠ 0 := by
  obtain ⟨_, hbit, hflags⟩ := getMemoryTypeIndex_ok_spec mp type_bits _ i hcount h
  exact ⟨hbit, flag_set_of_testBit _ 1 (hflags 1 (by decide)),
    flag_set_of_testBit _ 2 (hflags 2 (by decide))⟩

theorem resident_type_spec (mp : VkPhysicalDeviceMemoryProperties) (type_bits i : Nat)
    (hcount : mp.memoryTypeCount ≤ 32)
    (h : getMemoryTypeIndex mp type_bits VK_MEMORY_PROPERTY_DEVICE_LOCAL_BIT = .ok i) :
    type_bits.testBit i = true ∧
    (mp.memoryTypes i).propertyFlags &&& VK_MEMORY_PROPERTY_DEVICE_LOCAL_BIT ≠ 0 := by
  obtain ⟨_, hbit, hflags⟩ := getMemoryTypeIndex_ok_spec mp type_bits _ i hcount h
  exact ⟨hbit, flag_set_of_testBit _ 0 (hflags 0 (by decide))⟩

set_option maxHeartbeats 8000000 in
/-- C6: over a table with at most 32 memory types, whatever the driver replies
and on every path through `create_vertex_buffers`: each allocation is made from
a memory type index that is in the `memoryTypeBits` reported for the buffer
queried last, and that type has HOST_VISIBLE and HOST_COHERENT when that buffer
was created with usage TRANSFER_SRC, and DEVICE_LOCAL when it was created with
VERTEX_BUFFER|TRANSFER_DST or INDEX_BUFFER|TRANSFER_DST; every buffer created
has one of these three usages. On a run that returns,
the buffers created are, in order, two with usage exactly TRANSFER_SRC, then
`vertex_buffer.buf` with VERTEX_BUFFER|TRANSFER_DST and `index_buffer.buf` with
INDEX_BUFFER|TRANSFER_DST, and the four allocations are for these buffers in
this order. -/
theorem create_vertex_buffers_memory_types (vertices : List Nat) (verticesSize : Nat)
    (indices : List Nat) (indicesSize : Nat) (env : Env) (w : World)
    (hcount : w.memory_properties.memoryTypeCount ≤ 32) :
    (∀ s ∈ allocation_sites
        ((create_vertex_buffers vertices verticesSize indices indicesSize env w).world.trace.drop
          w.trace.length),
      s.memoryTypeBits.testBit s.memoryTypeIndex = true ∧
      ((s.usage = some VK_BUFFER_USAGE_TRANSFER_SRC_BIT ∧
        (w.memory_properties.memoryTypes s.memoryTypeIndex).propertyFlags &&&
          VK_MEMORY_PROPERTY_HOST_VISIBLE_BIT ≠ 0 ∧
        (w.memory_properties.memoryTypes s.memoryTypeIndex).propertyFlags &&&
          VK_MEMORY_PROPERTY_HOST_COHERENT_BIT ≠ 0) ∨
       ((s.usage = some (VK_BUFFER_USAGE_VERTEX_BUFFER_BIT ||| VK_BUFFER_USAGE_TRANSFER_DST_BIT) ∨
         s.usage = some (VK_BUFFER_USAGE_INDEX_BUFFER_BIT ||| VK_BUFFER_USAGE_TRANSFER_DST_BIT)) ∧
        (w.memory_properties.memoryTypes s.memoryTypeIndex).propertyFlags &&&
          VK_MEMORY_PROPERTY_DEVICE_LOCAL_BIT ≠ 0))) ∧
    (∀ b ∈ created_buffers
        ((create_vertex_buffers vertices verticesSize indices indicesSize env w).world.trace.drop
          w.trace.length),
      b.2 = VK_BUFFER_USAGE_TRANSFER_SRC_BIT ∨
      b.2 = VK_BUFFER_USAGE_VERTEX_BUFFER_BIT ||| VK_BUFFER_USAGE_TRANSFER_DST_BIT ∨
      b.2 = VK_BUFFER_USAGE_INDEX_BUFFER_BIT ||| VK_BUFFER_USAGE_TRANSFER_DST_BIT) ∧
    ((create_vertex_buffers vertices verticesSize indices indicesSize env w).returned = true →
      ∃ vertex_staging index_staging : Nat,
        created_buffers
          ((create_vertex_buffers vertices verticesSize indices indicesSize env w).world.trace.drop
            w.trace.length) =
          [(vertex_staging, VK_BUFFER_USAGE_TRANSFER_SRC_BIT),
           (index_staging, VK_BUFFER_USAGE_TRANSFER_SRC_BIT),
           ((create_vertex_buffers vertices verticesSize indices indicesSize env w).world.vertex_buffer.buf,
             VK_BUFFER_USAGE_VERTEX_BUFFER_BIT ||| VK_BUFFER_USAGE_TRANSFER_DST_BIT),
           ((create_vertex_buffers vertices verticesSize indices indicesSize env w).world.index_buffer.buf,
             VK_BUFFER_USAGE_INDEX_BUFFER_BIT ||| VK_BUFFER_USAGE_TRANSFER_DST_BIT)] ∧
        (allocation_sites
          ((create_vertex_buffers vertices verticesSize indices indicesSize env w).world.trace.drop
            w.trace.length)).map (fun s => (s.buf, s.usage)) =
          [(vertex_staging, some VK_BUFFER_USAGE_TRANSFER_SRC_BIT),
           (index_staging, some VK_BUFFER_USAGE_TRANSFER_SRC_BIT),
           ((create_vertex_buffers vertices verticesSize indices indicesSize env w).world.vertex_buffer.buf,
             some (VK_BUFFER_USAGE_VERTEX_BUFFER_BIT ||| VK_BUFFER_USAGE_TRANSFER_DST_BIT)),
           ((create_vertex_buffers vertices verticesSize indices indicesSize env w).world.index_buffer.buf,
             some (VK_BUFFER_USAGE_INDEX_BUFFER_BIT ||| VK_BUFFER_USAGE_TRANSFER_DST_BIT))]) := by
  unfold create_vertex_buffers
  simp only [run_bind, run_get_env, run_get_world, run_modify_world, run_VK_CHECK_native,
    run_native, run_pure, run_getMemoryTypeIndexM, run_getCommandBuffer_true,
    run_flushCommandBuffer]
  by_cases h0 : (env.reply w.trace.length).result = VK_SUCCESS
  case neg =>
    simp only [h0, if_false, List.length_append, List.length_cons, List.length_nil, List.append_assoc, List.cons_append, List.nil_append, Nat.add_assoc, Nat.reduceAdd, Nat.zero_add]
    simp [Res.world, Res.returned, allocation_sites, allocation_sites_from, created_buffers, List.lookup, *]
  simp only [h0, if_true, List.length_append, List.length_cons, List.length_nil, List.append_assoc, List.cons_append, List.nil_append, Nat.add_assoc, Nat.reduceAdd, Nat.zero_add]
  cases hg1 : getMemoryTypeIndex w.memory_properties (env.reply (w.trace.length + 1)).memoryRequirements.memoryTypeBits (VK_MEMORY_PROPERTY_HOST_VISIBLE_BIT ||| VK_MEMORY_PROPERTY_HOST_COHERENT_BIT) with
  | error f =>
    simp only [List.length_append, List.length_cons, List.length_nil, List.append_assoc, List.cons_append, List.nil_append, Nat.add_assoc, Nat.reduceAdd, Nat.zero_add]
    simp [Res.world, Res.returned, allocation_sites, allocation_sites_from, created_buffers, List.lookup, *]
  | ok i1 => ?_
  simp only [List.length_append, List.length_cons, List.length_nil, List.append_assoc, List.cons_append, List.nil_append, Nat.add_assoc, Nat.reduceAdd, Nat.zero_add]
  obtain ⟨hb1, hv1, hc1⟩ := staging_type_spec _ _ _ hcount hg1
  by_cases h2 : (env.reply (w.trace.length + 2)).result = VK_SUCCESS
  case neg =>
    simp only [h2, if_false, List.length_append, List.length_cons, List.length_nil, List.append_assoc, List.cons_append, List.nil_append, Nat.add_assoc, Nat.reduceAdd, Nat.zero_add]
    simp [Res.world, Res.returned, allocation_sites, allocation_sites_from, created_buffers, List.lookup, *]
  simp only [h2, if_true, List.length_append, List.length_cons, List.length_nil, List.append_assoc, List.cons_append, List.nil_append, Nat.add_assoc, Nat.reduceAdd, Nat.zero_add]
  by_cases h3 : (env.reply (w.trace.length + 3)).result = VK_SUCCESS
  case neg =>
    simp only [h3, if_false, List.length_append, List.length_cons, List.length_nil, List.append_assoc, List.cons_append, List.nil_append, Nat.add_assoc, Nat.reduceAdd, Nat.zero_add]
    simp [Res.world, Res.returned, allocation_sites, allocation_sites_from, created_buffers, List.lookup, *]
  simp only [h3, if_true, List.length_append, List.length_cons, List.length_nil, List.append_assoc, List.cons_append, List.nil_append, Nat.add_assoc, Nat.reduceAdd, Nat.zero_add]
  by_cases h6 : (env.reply (w.trace.length + 6)).result = VK_SUCCESS
  case neg =>
    simp only [h6, if_false, List.length_append, List.length_cons, List.length_nil, List.append_assoc, List.cons_append, List.nil_append, Nat.add_assoc, Nat.reduceAdd, Nat.zero_add]
    simp [Res.world, Res.returned, allocation_sites, allocation_sites_from, created_buffers, List.lookup, *]
  simp only [h6, if_true, List.length_append, List.length_cons, List.length_nil, List.append_assoc, List.cons_append, List.nil_append, Nat.add_assoc, Nat.reduceAdd, Nat.zero_add]
  by_cases h7 : (env.reply (w.trace.length + 7)).result = VK_SUCCESS
  case neg =>
    simp only [h7, if_false, List.length_append, List.length_cons, List.length_nil, List.append_assoc, List.cons_append, List.nil_append, Nat.add_assoc, Nat.reduceAdd, Nat.zero_add]
    simp [Res.world, Res.returned, allocation_sites, allocation_sites_from, created_buffers, List.lookup, *]
  simp only [h7, if_true, List.length_append, List.length_cons, List.length_nil, List.append_assoc, List.cons_append, List.nil_append, Nat.add_assoc, Nat.reduceAdd, Nat.zero_add]
  cases hg8 : getMemoryTypeIndex w.memory_properties (env.reply (w.trace.length + 8)).memoryRequirements.memoryTypeBits (VK_MEMORY_PROPERTY_HOST_VISIBLE_BIT ||| VK_MEMORY_PROPERTY_HOST_COHERENT_BIT) with
  | error f =>
    simp only [List.length_append, List.length_cons, List.length_nil, List.append_assoc, List.cons_append, List.nil_append, Nat.add_assoc, Nat.reduceAdd, Nat.zero_add]
    simp [Res.world, Res.returned, allocation_sites, allocation_sites_from, created_buffers, List.lookup, *]
  | ok i8 => ?_
  simp only [List.length_append, List.length_cons, List.length_nil, List.append_assoc, List.cons_append, List.nil_append, Nat.add_assoc, Nat.reduceAdd, Nat.zero_add]
  obtain ⟨hb8, hv8, hc8⟩ := staging_type_spec _ _ _ hcount hg8
  by_cases h9 : (env.reply (w.trace.length + 9)).result = VK_SUCCESS
  case neg =>
    simp only [h9, if_false, List.length_append, List.length_cons, List.length_nil, List.append_assoc, List.cons_append, List.nil_append, Nat.add_assoc, Nat.reduceAdd, Nat.zero_add]
    simp [Res.world, Res.returned, allocation_sites, allocation_sites_from, created_buffers, List.lookup, *]
  simp only [h9, if_true, List.length_append, List.length_cons, List.length_nil, List.append_assoc, List.cons_append, List.nil_append, Nat.add_assoc, Nat.reduceAdd, Nat.zero_add]
  by_cases h10 : (env.reply (w.trace.length + 10)).result = VK_SUCCESS
  case neg =>
    simp only [h10, if_false, List.length_append, List.length_cons, List.length_nil, List.append_assoc, List.cons_append, List.nil_append, Nat.add_assoc, Nat.reduceAdd, Nat.zero_add]
    simp [Res.world, Res.returned, allocation_sites, allocation_sites_from, created_buffers, List.lookup, *]
  simp only [h10, if_true, List.length_append, List.length_cons, List.length_nil, List.append_assoc, List.cons_append, List.nil_append, Nat.add_assoc, Nat.reduceAdd, Nat.zero_add]
  by_cases h13 : (env.reply (w.trace.length + 13)).result = VK_SUCCESS
  case neg =>
    simp only [h13, if_false, List.length_append, List.length_cons, List.length_nil, List.append_assoc, List.cons_append, List.nil_append, Nat.add_assoc, Nat.reduceAdd, Nat.zero_add]
    simp [Res.world, Res.returned, allocation_sites, allocation_sites_from, created_buffers, List.lookup, *]
  simp only [h13, if_true, List.length_append, List.length_cons, List.length_nil, List.append_assoc, List.cons_append, List.nil_append, Nat.add_assoc, Nat.reduceAdd, Nat.zero_add]
  by_cases h14 : (env.reply (w.trace.length + 14)).result = VK_SUCCESS
  case neg =>
    simp only [h14, if_false, List.length_append, List.length_cons, List.length_nil, List.append_assoc, List.cons_append, List.nil_append, Nat.add_assoc, Nat.reduceAdd, Nat.zero_add]
    simp [Res.world, Res.returned, allocation_sites, allocation_sites_from, created_buffers, List.lookup, *]
  simp only [h14, if_true, List.length_append, List.length_cons, List.length_nil, List.append_assoc, List.cons_append, List.nil_append, Nat.add_assoc, Nat.reduceAdd, Nat.zero_add]
  cases hg15 : getMemoryTypeIndex w.memory_properties (env.reply (w.trace.length + 15)).memoryRequirements.memoryTypeBits VK_MEMORY_PROPERTY_DEVICE_LOCAL_BIT with
  | error f =>
    simp only [List.length_append, List.length_cons, List.length_nil, List.append_assoc, List.cons_append, List.nil_append, Nat.add_assoc, Nat.reduceAdd, Nat.zero_add]
    simp [Res.world, Res.returned, allocation_sites, allocation_sites_from, created_buffers, List.lookup, *]
  | ok i15 => ?_
  simp only [List.length_append, List.length_cons, List.length_nil, List.append_assoc, List.cons_append, List.nil_append, Nat.add_assoc, Nat.reduceAdd, Nat.zero_add]
  obtain ⟨hb15, hl15⟩ := resident_type_spec _ _ _ hcount hg15
  by_cases h16 : (env.reply (w.trace.length + 16)).result = VK_SUCCESS
  case neg =>
    simp only [h16, if_false, List.length_append, List.length_cons, List.length_nil, List.append_assoc, List.cons_append, List.nil_append, Nat.add_assoc, Nat.reduceAdd, Nat.zero_add]
    simp [Res.world, Res.returned, allocation_sites, allocation_sites_from, created_buffers, List.lookup, *]
  simp only [h16, if_true, List.length_append, List.length_cons, List.length_nil, List.append_assoc, List.cons_append, List.nil_append, Nat.add_assoc, Nat.reduceAdd, Nat.zero_add]
  by_cases h17 : (env.reply (w.trace.length + 17)).result = VK_SUCCESS
  case neg =>
    simp only [h17, if_false, List.length_append, List.length_cons, List.length_nil, List.append_assoc, List.cons_append, List.nil_append, Nat.add_assoc, Nat.reduceAdd, Nat.zero_add]
    simp [Res.world, Res.returned, allocation_sites, allocation_sites_from, created_buffers, List.lookup, *]
  simp only [h17, if_true, List.length_append, List.length_cons, List.length_nil, List.append_assoc, List.cons_append, List.nil_append, Nat.add_assoc, Nat.reduceAdd, Nat.zero_add]
  by_cases h18 : (env.reply (w.trace.length + 18)).result = VK_SUCCESS
  case neg =>
    simp only [h18, if_false, List.length_append, List.length_cons, List.length_nil, List.append_assoc, List.cons_append, List.nil_append, Nat.add_assoc, Nat.reduceAdd, Nat.zero_add]
    simp [Res.world, Res.returned, allocation_sites, allocation_sites_from, created_buffers, List.lookup, *]
  simp only [h18, if_true, List.length_append, List.length_cons, List.length_nil, List.append_assoc, List.cons_append, List.nil_append, Nat.add_assoc, Nat.reduceAdd, Nat.zero_add]
  cases hg19 : getMemoryTypeIndex w.memory_properties (env.reply (w.trace.length + 19)).memoryRequirements.memoryTypeBits VK_MEMORY_PROPERTY_DEVICE_LOCAL_BIT with
  | error f =>
    simp only [List.length_append, List.length_cons, List.length_nil, List.append_assoc, List.cons_append, List.nil_append, Nat.add_assoc, Nat.reduceAdd, Nat.zero_add]
    simp [Res.world, Res.returned, allocation_sites, allocation_sites_from, created_buffers, List.lookup, *]
  | ok i19 => ?_
  simp only [List.length_append, List.length_cons, List.length_nil, List.append_assoc, List.cons_append, List.nil_append, Nat.add_assoc, Nat.reduceAdd, Nat.zero_add]
  obtain ⟨hb19, hl19⟩ := resident_type_spec _ _ _ hcount hg19
  by_cases h20 : (env.reply (w.trace.length + 20)).result = VK_SUCCESS
  case neg =>
    simp only [h20, if_false, List.length_append, List.length_cons, List.length_nil, List.append_assoc, List.cons_append, List.nil_append, Nat.add_assoc, Nat.reduceAdd, Nat.zero_add]
    simp [Res.world, Res.returned, allocation_sites, allocation_sites_from, created_buffers, List.lookup, *]
  simp only [h20, if_true, List.length_append, List.length_cons, List.length_nil, List.append_assoc, List.cons_append, List.nil_append, Nat.add_assoc, Nat.reduceAdd, Nat.zero_add]
  by_cases h21 : (env.reply (w.trace.length + 21)).result = VK_SUCCESS
  case neg =>
    simp only [h21, if_false, List.length_append, List.length_cons, List.length_nil, List.append_assoc, List.cons_append, List.nil_append, Nat.add_assoc, Nat.reduceAdd, Nat.zero_add]
    simp [Res.world, Res.returned, allocation_sites, allocation_sites_from, created_buffers, List.lookup, *]
  simp only [h21, if_true, List.length_append, List.length_cons, List.length_nil, List.append_assoc, List.cons_append, List.nil_append, Nat.add_assoc, Nat.reduceAdd, Nat.zero_add]
  by_cases h22 : (env.reply (w.trace.length + 22)).result = VK_SUCCESS
  case neg =>
    simp only [h22, if_false, List.length_append, List.length_cons, List.length_nil, List.append_assoc, List.cons_append, List.nil_append, Nat.add_assoc, Nat.reduceAdd, Nat.zero_add]
    simp [Res.world, Res.returned, allocation_sites, allocation_sites_from, created_buffers, List.lookup, *]
  simp only [h22, if_true, List.length_append, List.length_cons, List.length_nil, List.append_assoc, List.cons_append, List.nil_append, Nat.add_assoc, Nat.reduceAdd, Nat.zero_add]
  by_cases h23 : (env.reply (w.trace.length + 23)).result = VK_SUCCESS
  case neg =>
    simp only [h23, if_false, List.length_append, List.length_cons, List.length_nil, List.append_assoc, List.cons_append, List.nil_append, Nat.add_assoc, Nat.reduceAdd, Nat.zero_add]
    simp [Res.world, Res.returned, allocation_sites, allocation_sites_from, created_buffers, List.lookup, *]
  simp only [h23, if_true, List.length_append, List.length_cons, List.length_nil, List.append_assoc, List.cons_append, List.nil_append, Nat.add_assoc, Nat.reduceAdd, Nat.zero_add]
  by_cases hcb : (env.reply (w.trace.length + 22)).handle = VK_NULL_HANDLE
  case pos =>
    simp only [hcb, if_true]
    simp [Res.world, Res.returned, allocation_sites, allocation_sites_from, created_buffers, List.lookup, *]
  simp only [hcb, if_false, List.length_append, List.length_cons, List.length_nil, List.append_assoc, List.cons_append, List.nil_append, Nat.add_assoc, Nat.reduceAdd, Nat.zero_add]
  by_cases h26 : (env.reply (w.trace.length + 26)).result = VK_SUCCESS
  case neg =>
    simp only [h26, if_false, List.length_append, List.length_cons, List.length_nil, List.append_assoc, List.cons_append, List.nil_append, Nat.add_assoc, Nat.reduceAdd, Nat.zero_add]
    simp [Res.world, Res.returned, allocation_sites, allocation_sites_from, created_buffers, List.lookup, *]
  simp only [h26, if_true, List.length_append, List.length_cons, List.length_nil, List.append_assoc, List.cons_append, List.nil_append, Nat.add_assoc, Nat.reduceAdd, Nat.zero_add]
  by_cases h27 : (env.reply (w.trace.length + 27)).result = VK_SUCCESS
  case neg =>
    simp only [h27, if_false, List.length_append, List.length_cons, List.length_nil, List.append_assoc, List.cons_append, List.nil_append, Nat.add_assoc, Nat.reduceAdd, Nat.zero_add]
    simp [Res.world, Res.returned, allocation_sites, allocation_sites_from, created_buffers, List.lookup, *]
  simp only [h27, if_true, List.length_append, List.length_cons, List.length_nil, List.append_assoc, List.cons_append, List.nil_append, Nat.add_assoc, Nat.reduceAdd, Nat.zero_add]
  by_cases h28 : (env.reply (w.trace.length + 28)).result = VK_SUCCESS
  case neg =>
    simp only [h28, if_false, List.length_append, List.length_cons, List.length_nil, List.append_assoc, List.cons_append, List.nil_append, Nat.add_assoc, Nat.reduceAdd, Nat.zero_add]
    simp [Res.world, Res.returned, allocation_sites, allocation_sites_from, created_buffers, List.lookup, *]
  simp only [h28, if_true, List.length_append, List.length_cons, List.length_nil, List.append_assoc, List.cons_append, List.nil_append, Nat.add_assoc, Nat.reduceAdd, Nat.zero_add]
  by_cases h29 : (env.reply (w.trace.length + 29)).result = VK_SUCCESS
  case neg =>
    simp only [h29, if_false, List.length_append, List.length_cons, List.length_nil, List.append_assoc, List.cons_append, List.nil_append, Nat.add_assoc, Nat.reduceAdd, Nat.zero_add]
    simp [Res.world, Res.returned, allocation_sites, allocation_sites_from, created_buffers, List.lookup, *]
  simp only [h29, if_true, List.length_append, List.length_cons, List.length_nil, List.append_assoc, List.cons_append, List.nil_append, Nat.add_assoc, Nat.reduceAdd, Nat.zero_add]
  refine ⟨?_, ?_, fun _ => ⟨(env.reply w.trace.length).handle,
    (env.reply (w.trace.length + 7)).handle, ?_, ?_⟩⟩
  all_goals simp [Res.world, Res.returned, allocation_sites, allocation_sites_from, created_buffers, List.lookup, *]

theorem create_vertex_buffers_memory_types_witness :
    sample_world.memory_properties.memoryTypeCount ≤ 32 ∧
    (∀ s ∈ allocation_sites
        ((create_vertex_buffers vertices sizeof_vertices indices sizeof_indices sample_env sample_world).world.trace.drop
          sample_world.trace.length),
      s.memoryTypeBits.testBit s.memoryTypeIndex = true ∧
      ((s.usage = some VK_BUFFER_USAGE_TRANSFER_SRC_BIT ∧
        (sample_world.memory_properties.memoryTypes s.memoryTypeIndex).propertyFlags &&&
          VK_MEMORY_PROPERTY_HOST_VISIBLE_BIT ≠ 0 ∧
        (sample_world.memory_properties.memoryTypes s.memoryTypeIndex).propertyFlags &&&
          VK_MEMORY_PROPERTY_HOST_COHERENT_BIT ≠ 0) ∨
       ((s.usage = some (VK_BUFFER_USAGE_VERTEX_BUFFER_BIT ||| VK_BUFFER_USAGE_TRANSFER_DST_BIT) ∨
         s.usage = some (VK_BUFFER_USAGE_INDEX_BUFFER_BIT ||| VK_BUFFER_USAGE_TRANSFER_DST_BIT)) ∧
        (sample_world.memory_properties.memoryTypes s.memoryTypeIndex).propertyFlags &&&
          VK_MEMORY_PROPERTY_DEVICE_LOCAL_BIT ≠ 0))) :=
  have h : sample_world.memory_properties.memoryTypeCount ≤ 32 := by decide
  ⟨h, (create_vertex_buffers_memory_types vertices sizeof_vertices indices sizeof_indices
    sample_env sample_world h).1⟩

/-! ## The uploader on the triangle -/

/-- C3 at the call `prepare_vulkan` makes: the run returns, the vertex data has
72 bytes and the index data 12, but each resident buffer holds only the first 8
bytes of its data (the size of a pointer), so its contents differ from the
input. -/
theorem create_vertex_buffers_contents_at_triangle :
    sample_upload.returned = true ∧
    vertices.length = 72 ∧ indices.length = 12 ∧
    buffer_contents sample_upload.world.trace sample_upload.world.vertex_buffer.buf =
      some (vertices.take 8) ∧
    buffer_contents sample_upload.world.trace sample_upload.world.index_buffer.buf =
      some (indices.take 8) ∧
    buffer_contents sample_upload.world.trace sample_upload.world.vertex_buffer.buf ≠
      some vertices ∧
    buffer_contents sample_upload.world.trace sample_upload.world.index_buffer.buf ≠
      some indices := by
  decide

/-- C4 at the call `prepare_vulkan` makes: the caller passes 72 and 12 as byte
sizes, but all four buffers are created with size 8 (the size of a pointer) and
both host copies copy 8 bytes. -/
theorem create_vertex_buffers_sizes_at_triangle :
    sample_upload.returned = true ∧
    sizeof_vertices = 72 ∧ sizeof_indices = 12 ∧
    buffer_sizes (sample_upload.world.trace.drop sample_world.trace.length) = [8, 8, 8, 8] ∧
    host_copy_sizes (sample_upload.world.trace.drop sample_world.trace.length) = [8, 8] := by
  decide

/-- C5 at the call `prepare_vulkan` makes: two copy commands are recorded into
the one command buffer, staging to resident with both offsets 0, but each with
size 8 (the size of a pointer) where the data has 72 and 12 bytes. -/
theorem create_vertex_buffers_copies_at_triangle :
    sample_upload.returned = true ∧
    sizeof_vertices = 72 ∧ sizeof_indices = 12 ∧
    copy_commands (sample_upload.world.trace.drop sample_world.trace.length) =
      [(128, 106, sample_upload.world.vertex_buffer.buf,
          [{ srcOffset := 0, dstOffset := 0, size := 8 }]),
       (128, 113, sample_upload.world.index_buffer.buf,
          [{ srcOffset := 0, dstOffset := 0, size := 8 }])] := by
  decide

/-! ## The status check -/

/-- C11: a call wrapped in `VK_CHECK` ends the process with `exit(EXIT_FAILURE)`
exactly when the status it returned differs from `VK_SUCCESS`, and execution
continues past it exactly when the status is `VK_SUCCESS`. In
`flushCommandBuffer` the fence wait is issued with the bound
`DEFAULT_FENCE_TIMEOUT` = 100000000000 ns = 100 s, and any status of that wait
other than `VK_SUCCESS`, `VK_TIMEOUT` in particular, ends the process with the
same failure exit. -/
theorem VK_CHECK_fatal_iff_not_success (c : Call) (env : Env) (w : World)
    (commandBuffer : Nat) (hcb : commandBuffer ≠ VK_NULL_HANDLE) :
    ((∃ w1 : World, VK_CHECK (native c) env w = Res.fatal Fatal.exit_failure w1) ↔
      (env.reply w.trace.length).result ≠ VK_SUCCESS) ∧
    ((VK_CHECK (native c) env w).returned = true ↔
      (env.reply w.trace.length).result = VK_SUCCESS) ∧
    DEFAULT_FENCE_TIMEOUT = 100 * 1000000000 ∧
    VK_TIMEOUT ≠ VK_SUCCESS ∧
    ((env.reply w.trace.length).result = VK_SUCCESS →
      (env.reply (w.trace.length + 1)).result = VK_SUCCESS →
      (env.reply (w.trace.length + 2)).result = VK_SUCCESS →
      (env.reply (w.trace.length + 3)).result ≠ VK_SUCCESS →
      ∃ w1 : World, flushCommandBuffer commandBuffer env w = Res.fatal Fatal.exit_failure w1 ∧
        (⟨.vkWaitForFences [(env.reply (w.trace.length + 1)).handle] true DEFAULT_FENCE_TIMEOUT,
          env.reply (w.trace.length + 3)⟩ : Event) ∈ w1.trace) ∧
    ((env.reply w.trace.length).result = VK_SUCCESS →
      (env.reply (w.trace.length + 1)).result = VK_SUCCESS →
      (env.reply (w.trace.length + 2)).result = VK_SUCCESS →
      (env.reply (w.trace.length + 3)).result = VK_TIMEOUT →
      ∃ w1 : World, flushCommandBuffer commandBuffer env w = Res.fatal Fatal.exit_failure w1) := by
  have hflush : (env.reply w.trace.length).result = VK_SUCCESS →
      (env.reply (w.trace.length + 1)).result = VK_SUCCESS →
      (env.reply (w.trace.length + 2)).result = VK_SUCCESS →
      (env.reply (w.trace.length + 3)).result ≠ VK_SUCCESS →
      ∃ w1 : World, flushCommandBuffer commandBuffer env w = Res.fatal Fatal.exit_failure w1 ∧
        (⟨.vkWaitForFences [(env.reply (w.trace.length + 1)).handle] true DEFAULT_FENCE_TIMEOUT,
          env.reply (w.trace.length + 3)⟩ : Event) ∈ w1.trace := by
    intro h0 h1 h2 h3
    rw [run_flushCommandBuffer, if_neg hcb, if_pos h0, if_pos h1, if_pos h2, if_neg h3]
    exact ⟨_, rfl, by simp⟩
  have htimeout : VK_TIMEOUT ≠ VK_SUCCESS := by decide
  refine ⟨?_, ?_, by decide, htimeout, hflush, ?_⟩
  · rw [run_VK_CHECK_native]
    by_cases h : (env.reply w.trace.length).result = VK_SUCCESS
    · simp [h]
    · simp [h]
  · rw [run_VK_CHECK_native]
    by_cases h : (env.reply w.trace.length).result = VK_SUCCESS
    · simp [h, Res.returned]
    · simp [h, Res.returned]
  · intro h0 h1 h2 h3
    obtain ⟨w1, hw1, _⟩ := hflush h0 h1 h2 (by rw [h3]; exact htimeout)
    exact ⟨w1, hw1⟩

theorem VK_CHECK_fatal_iff_not_success_witness :
    (5 : Nat) ≠ VK_NULL_HANDLE ∧
    ((sample_env_with 3 VK_TIMEOUT).reply (World.initial false).trace.length).result =
      VK_SUCCESS ∧
    ((sample_env_with 3 VK_TIMEOUT).reply ((World.initial false).trace.length + 3)).result =
      VK_TIMEOUT ∧
    ∃ w1 : World, flushCommandBuffer 5 (sample_env_with 3 VK_TIMEOUT) (World.initial false) =
      Res.fatal Fatal.exit_failure w1 :=
  have h := VK_CHECK_fatal_iff_not_success (.vkCreateFence 0) (sample_env_with 3 VK_TIMEOUT)
    (World.initial false) 5 (by decide)
  ⟨by decide, by decide, by decide,
    h.2.2.2.2.2 (by decide) (by decide) (by decide) (by decide)⟩

/-- C12 at the first checked call of `create_vertex_buffers`, when
`vkCreateBuffer` reports `VK_ERROR_OUT_OF_DEVICE_MEMORY`: the run ends fatally
and `vkCreateBuffer` has been called twice with the same arguments (the second
call, made while the failure is reported, even succeeds here). -/
theorem VK_CHECK_repeats_call_on_failure :
    (create_vertex_buffers vertices sizeof_vertices indices sizeof_indices
      (sample_env_with 6 VK_ERROR_OUT_OF_DEVICE_MEMORY) sample_world).returned = false ∧
    sample_world.trace.length = 6 ∧
    ((create_vertex_buffers vertices sizeof_vertices indices sizeof_indices
      (sample_env_with 6 VK_ERROR_OUT_OF_DEVICE_MEMORY) sample_world).world.trace.drop
        sample_world.trace.length).map (fun e => (e.call, e.reply.result)) =
      [(.vkCreateBuffer 8 VK_BUFFER_USAGE_TRANSFER_SRC_BIT, VK_ERROR_OUT_OF_DEVICE_MEMORY),
       (.vkCreateBuffer 8 VK_BUFFER_USAGE_TRANSFER_SRC_BIT, VK_SUCCESS)] := by
  decide

/-! ## Releases of the uploader -/

/-- C13 as stated fails: when the creation of the second staging buffer
reports an error, the run ends fatally after the first staging buffer (handle
106) was created and its memory (handle 108) allocated, and neither has been
destroyed or freed. -/
theorem create_vertex_buffers_leaks_on_failure :
    (create_vertex_buffers vertices sizeof_vertices indices sizeof_indices
      (sample_env_with 13 VK_ERROR_OUT_OF_DEVICE_MEMORY) sample_world).returned = false ∧
    (106, VK_BUFFER_USAGE_TRANSFER_SRC_BIT) ∈ created_buffers
      ((create_vertex_buffers vertices sizeof_vertices indices sizeof_indices
        (sample_env_with 13 VK_ERROR_OUT_OF_DEVICE_MEMORY) sample_world).world.trace.drop
          sample_world.trace.length) ∧
    108 ∈ allocated_memories
      ((create_vertex_buffers vertices sizeof_vertices indices sizeof_indices
        (sample_env_with 13 VK_ERROR_OUT_OF_DEVICE_MEMORY) sample_world).world.trace.drop
          sample_world.trace.length) ∧
    destroyed_buffers
      ((create_vertex_buffers vertices sizeof_vertices indices sizeof_indices
        (sample_env_with 13 VK_ERROR_OUT_OF_DEVICE_MEMORY) sample_world).world.trace.drop
          sample_world.trace.length) = [] ∧
    freed_memories
      ((create_vertex_buffers vertices sizeof_vertices indices sizeof_indices
        (sample_env_with 13 VK_ERROR_OUT_OF_DEVICE_MEMORY) sample_world).world.trace.drop
          sample_world.trace.length) = [] := by
  decide

set_option maxHeartbeats 8000000 in
/-- C13 as amended: on a run of `create_vertex_buffers` that returns, four
buffers and four memories were created, exactly the two staging buffers are
destroyed and exactly the two staging memories are freed, and the other two
buffers and memories are the ones held in `vertex_buffer` and `index_buffer`;
on a run that ends fatally no buffer is destroyed and no memory is freed. -/
theorem create_vertex_buffers_releases (vertices : List Nat) (verticesSize : Nat)
    (indices : List Nat) (indicesSize : Nat) (env : Env) (w : World) :
    ((create_vertex_buffers vertices verticesSize indices indicesSize env w).returned = true →
      ∃ vertex_staging index_staging : buffer,
        created_buffers
          ((create_vertex_buffers vertices verticesSize indices indicesSize env w).world.trace.drop
            w.trace.length) =
          [(vertex_staging.buf, VK_BUFFER_USAGE_TRANSFER_SRC_BIT),
           (index_staging.buf, VK_BUFFER_USAGE_TRANSFER_SRC_BIT),
           ((create_vertex_buffers vertices verticesSize indices indicesSize env w).world.vertex_buffer.buf,
             VK_BUFFER_USAGE_VERTEX_BUFFER_BIT ||| VK_BUFFER_USAGE_TRANSFER_DST_BIT),
           ((create_vertex_buffers vertices verticesSize indices indicesSize env w).world.index_buffer.buf,
             VK_BUFFER_USAGE_INDEX_BUFFER_BIT ||| VK_BUFFER_USAGE_TRANSFER_DST_BIT)] ∧
        allocated_memories
          ((create_vertex_buffers vertices verticesSize indices indicesSize env w).world.trace.drop
            w.trace.length) =
          [vertex_staging.mem, index_staging.mem,
           (create_vertex_buffers vertices verticesSize indices indicesSize env w).world.vertex_buffer.mem,
           (create_vertex_buffers vertices verticesSize indices indicesSize env w).world.index_buffer.mem] ∧
        destroyed_buffers
          ((create_vertex_buffers vertices verticesSize indices indicesSize env w).world.trace.drop
            w.trace.length) = [vertex_staging.buf, index_staging.buf] ∧
        freed_memories
          ((create_vertex_buffers vertices verticesSize indices indicesSize env w).world.trace.drop
            w.trace.length) = [vertex_staging.mem, index_staging.mem]) ∧
    ((create_vertex_buffers vertices verticesSize indices indicesSize env w).returned = false →
      destroyed_buffers
        ((create_vertex_buffers vertices verticesSize indices indicesSize env w).world.trace.drop
          w.trace.length) = [] ∧
      freed_memories
        ((create_vertex_buffers vertices verticesSize indices indicesSize env w).world.trace.drop
          w.trace.length) = []) := by
  unfold create_vertex_buffers
  simp only [run_bind, run_get_env, run_get_world, run_modify_world, run_VK_CHECK_native,
    run_native, run_pure, run_getMemoryTypeIndexM, run_getCommandBuffer_true,
    run_flushCommandBuffer]
  by_cases h0 : (env.reply w.trace.length).result = VK_SUCCESS
  case neg =>
    simp only [h0, if_false, List.length_append, List.length_cons, List.length_nil, List.append_assoc, List.cons_append, List.nil_append, Nat.add_assoc, Nat.reduceAdd, Nat.zero_add]
    simp [Res.world, Res.returned, created_buffers, allocated_memories, destroyed_buffers, freed_memories, *]
  simp only [h0, if_true, List.length_append, List.length_cons, List.length_nil, List.append_assoc, List.cons_append, List.nil_append, Nat.add_assoc, Nat.reduceAdd, Nat.zero_add]
  cases hg1 : getMemoryTypeIndex w.memory_properties (env.reply (w.trace.length + 1)).memoryRequirements.memoryTypeBits (VK_MEMORY_PROPERTY_HOST_VISIBLE_BIT ||| VK_MEMORY_PROPERTY_HOST_COHERENT_BIT) with
  | error f =>
    simp only [List.length_append, List.length_cons, List.length_nil, List.append_assoc, List.cons_append, List.nil_append, Nat.add_assoc, Nat.reduceAdd, Nat.zero_add]
    simp [Res.world, Res.returned, created_buffers, allocated_memories, destroyed_buffers, freed_memories, *]
  | ok i1 => ?_
  simp only [List.length_append, List.length_cons, List.length_nil, List.append_assoc, List.cons_append, List.nil_append, Nat.add_assoc, Nat.reduceAdd, Nat.zero_add]
  by_cases h2 : (env.reply (w.trace.length + 2)).result = VK_SUCCESS
  case neg =>
    simp only [h2, if_false, List.length_append, List.length_cons, List.length_nil, List.append_assoc, List.cons_append, List.nil_append, Nat.add_assoc, Nat.reduceAdd, Nat.zero_add]
    simp [Res.world, Res.returned, created_buffers, allocated_memories, destroyed_buffers, freed_memories, *]
  simp only [h2, if_true, List.length_append, List.length_cons, List.length_nil, List.append_assoc, List.cons_append, List.nil_append, Nat.add_assoc, Nat.reduceAdd, Nat.zero_add]
  by_cases h3 : (env.reply (w.trace.length + 3)).result = VK_SUCCESS
  case neg =>
    simp only [h3, if_false, List.length_append, List.length_cons, List.length_nil, List.append_assoc, List.cons_append, List.nil_append, Nat.add_assoc, Nat.reduceAdd, Nat.zero_add]
    simp [Res.world, Res.returned, created_buffers, allocated_memories, destroyed_buffers, freed_memories, *]
  simp only [h3, if_true, List.length_append, List.length_cons, List.length_nil, List.append_assoc, List.cons_append, List.nil_append, Nat.add_assoc, Nat.reduceAdd, Nat.zero_add]
  by_cases h6 : (env.reply (w.trace.length + 6)).result = VK_SUCCESS
  case neg =>
    simp only [h6, if_false, List.length_append, List.length_cons, List.length_nil, List.append_assoc, List.cons_append, List.nil_append, Nat.add_assoc, Nat.reduceAdd, Nat.zero_add]
    simp [Res.world, Res.returned, created_buffers, allocated_memories, destroyed_buffers, freed_memories, *]
  simp only [h6, if_true, List.length_append, List.length_cons, List.length_nil, List.append_assoc, List.cons_append, List.nil_append, Nat.add_assoc, Nat.reduceAdd, Nat.zero_add]
  by_cases h7 : (env.reply (w.trace.length + 7)).result = VK_SUCCESS
  case neg =>
    simp only [h7, if_false, List.length_append, List.length_cons, List.length_nil, List.append_assoc, List.cons_append, List.nil_append, Nat.add_assoc, Nat.reduceAdd, Nat.zero_add]
    simp [Res.world, Res.returned, created_buffers, allocated_memories, destroyed_buffers, freed_memories, *]
  simp only [h7, if_true, List.length_append, List.length_cons, List.length_nil, List.append_assoc, List.cons_append, List.nil_append, Nat.add_assoc, Nat.reduceAdd, Nat.zero_add]
  cases hg8 : getMemoryTypeIndex w.memory_properties (env.reply (w.trace.length + 8)).memoryRequirements.memoryTypeBits (VK_MEMORY_PROPERTY_HOST_VISIBLE_BIT ||| VK_MEMORY_PROPERTY_HOST_COHERENT_BIT) with
  | error f =>
    simp only [List.length_append, List.length_cons, List.length_nil, List.append_assoc, List.cons_append, List.nil_append, Nat.add_assoc, Nat.reduceAdd, Nat.zero_add]
    simp [Res.world, Res.returned, created_buffers, allocated_memories, destroyed_buffers, freed_memories, *]
  | ok i8 => ?_
  simp only [List.length_append, List.length_cons, List.length_nil, List.append_assoc, List.cons_append, List.nil_append, Nat.add_assoc, Nat.reduceAdd, Nat.zero_add]
  by_cases h9 : (env.reply (w.trace.length + 9)).result = VK_SUCCESS
  case neg =>
    simp only [h9, if_false, List.length_append, List.length_cons, List.length_nil, List.append_assoc, List.cons_append, List.nil_append, Nat.add_assoc, Nat.reduceAdd, Nat.zero_add]
    simp [Res.world, Res.returned, created_buffers, allocated_memories, destroyed_buffers, freed_memories, *]
  simp only [h9, if_true, List.length_append, List.length_cons, List.length_nil, List.append_assoc, List.cons_append, List.nil_append, Nat.add_assoc, Nat.reduceAdd, Nat.zero_add]
  by_cases h10 : (env.reply (w.trace.length + 10)).result = VK_SUCCESS
  case neg =>
    simp only [h10, if_false, List.length_append, List.length_cons, List.length_nil, List.append_assoc, List.cons_append, List.nil_append, Nat.add_assoc, Nat.reduceAdd, Nat.zero_add]
    simp [Res.world, Res.returned, created_buffers, allocated_memories, destroyed_buffers, freed_memories, *]
  simp only [h10, if_true, List.length_append, List.length_cons, List.length_nil, List.append_assoc, List.cons_append, List.nil_append, Nat.add_assoc, Nat.reduceAdd, Nat.zero_add]
  by_cases h13 : (env.reply (w.trace.length + 13)).result = VK_SUCCESS
  case neg =>
    simp only [h13, if_false, List.length_append, List.length_cons, List.length_nil, List.append_assoc, List.cons_append, List.nil_append, Nat.add_assoc, Nat.reduceAdd, Nat.zero_add]
    simp [Res.world, Res.returned, created_buffers, allocated_memories, destroyed_buffers, freed_memories, *]
  simp only [h13, if_true, List.length_append, List.length_cons, List.length_nil, List.append_assoc, List.cons_append, List.nil_append, Nat.add_assoc, Nat.reduceAdd, Nat.zero_add]
  by_cases h14 : (env.reply (w.trace.length + 14)).result = VK_SUCCESS
  case neg =>
    simp only [h14, if_false, List.length_append, List.length_cons, List.length_nil, List.append_assoc, List.cons_append, List.nil_append, Nat.add_assoc, Nat.reduceAdd, Nat.zero_add]
    simp [Res.world, Res.returned, created_buffers, allocated_memories, destroyed_buffers, freed_memories, *]
  simp only [h14, if_true, List.length_append, List.length_cons, List.length_nil, List.append_assoc, List.cons_append, List.nil_append, Nat.add_assoc, Nat.reduceAdd, Nat.zero_add]
  cases hg15 : getMemoryTypeIndex w.memory_properties (env.reply (w.trace.length + 15)).memoryRequirements.memoryTypeBits VK_MEMORY_PROPERTY_DEVICE_LOCAL_BIT with
  | error f =>
    simp only [List.length_append, List.length_cons, List.length_nil, List.append_assoc, List.cons_append, List.nil_append, Nat.add_assoc, Nat.reduceAdd, Nat.zero_add]
    simp [Res.world, Res.returned, created_buffers, allocated_memories, destroyed_buffers, freed_memories, *]
  | ok i15 => ?_
  simp only [List.length_append, List.length_cons, List.length_nil, List.append_assoc, List.cons_append, List.nil_append, Nat.add_assoc, Nat.reduceAdd, Nat.zero_add]
  by_cases h16 : (env.reply (w.trace.length + 16)).result = VK_SUCCESS
  case neg =>
    simp only [h16, if_false, List.length_append, List.length_cons, List.length_nil, List.append_assoc, List.cons_append, List.nil_append, Nat.add_assoc, Nat.reduceAdd, Nat.zero_add]
    simp [Res.world, Res.returned, created_buffers, allocated_memories, destroyed_buffers, freed_memories, *]
  simp only [h16, if_true, List.length_append, List.length_cons, List.length_nil, List.append_assoc, List.cons_append, List.nil_append, Nat.add_assoc, Nat.reduceAdd, Nat.zero_add]
  by_cases h17 : (env.reply (w.trace.length + 17)).result = VK_SUCCESS
  case neg =>
    simp only [h17, if_false, List.length_append, List.length_cons, List.length_nil, List.append_assoc, List.cons_append, List.nil_append, Nat.add_assoc, Nat.reduceAdd, Nat.zero_add]
    simp [Res.world, Res.returned, created_buffers, allocated_memories, destroyed_buffers, freed_memories, *]
  simp only [h17, if_true, List.length_append, List.length_cons, List.length_nil, List.append_assoc, List.cons_append, List.nil_append, Nat.add_assoc, Nat.reduceAdd, Nat.zero_add]
  by_cases h18 : (env.reply (w.trace.length + 18)).result = VK_SUCCESS
  case neg =>
    simp only [h18, if_false, List.length_append, List.length_cons, List.length_nil, List.append_assoc, List.cons_append, List.nil_append, Nat.add_assoc, Nat.reduceAdd, Nat.zero_add]
    simp [Res.world, Res.returned, created_buffers, allocated_memories, destroyed_buffers, freed_memories, *]
  simp only [h18, if_true, List.length_append, List.length_cons, List.length_nil, List.append_assoc, List.cons_append, List.nil_append, Nat.add_assoc, Nat.reduceAdd, Nat.zero_add]
  cases hg19 : getMemoryTypeIndex w.memory_properties (env.reply (w.trace.length + 19)).memoryRequirements.memoryTypeBits VK_MEMORY_PROPERTY_DEVICE_LOCAL_BIT with
  | error f =>
    simp only [List.length_append, List.length_cons, List.length_nil, List.append_assoc, List.cons_append, List.nil_append, Nat.add_assoc, Nat.reduceAdd, Nat.zero_add]
    simp [Res.world, Res.returned, created_buffers, allocated_memories, destroyed_buffers, freed_memories, *]
  | ok i19 => ?_
  simp only [List.length_append, List.length_cons, List.length_nil, List.append_assoc, List.cons_append, List.nil_append, Nat.add_assoc, Nat.reduceAdd, Nat.zero_add]
  by_cases h20 : (env.reply (w.trace.length + 20)).result = VK_SUCCESS
  case neg =>
    simp only [h20, if_false, List.length_append, List.length_cons, List.length_nil, List.append_assoc, List.cons_append, List.nil_append, Nat.add_assoc, Nat.reduceAdd, Nat.zero_add]
    simp [Res.world, Res.returned, created_buffers, allocated_memories, destroyed_buffers, freed_memories, *]
  simp only [h20, if_true, List.length_append, List.length_cons, List.length_nil, List.append_assoc, List.cons_append, List.nil_append, Nat.add_assoc, Nat.reduceAdd, Nat.zero_add]
  by_cases h21 : (env.reply (w.trace.length + 21)).result = VK_SUCCESS
  case neg =>
    simp only [h21, if_false, List.length_append, List.length_cons, List.length_nil, List.append_assoc, List.cons_append, List.nil_append, Nat.add_assoc, Nat.reduceAdd, Nat.zero_add]
    simp [Res.world, Res.returned, created_buffers, allocated_memories, destroyed_buffers, freed_memories, *]
  simp only [h21, if_true, List.length_append, List.length_cons, List.length_nil, List.append_assoc, List.cons_append, List.nil_append, Nat.add_assoc, Nat.reduceAdd, Nat.zero_add]
  by_cases h22 : (env.reply (w.trace.length + 22)).result = VK_SUCCESS
  case neg =>
    simp only [h22, if_false, List.length_append, List.length_cons, List.length_nil, List.append_assoc, List.cons_append, List.nil_append, Nat.add_assoc, Nat.reduceAdd, Nat.zero_add]
    simp [Res.world, Res.returned, created_buffers, allocated_memories, destroyed_buffers, freed_memories, *]
  simp only [h22, if_true, List.length_append, List.length_cons, List.length_nil, List.append_assoc, List.cons_append, List.nil_append, Nat.add_assoc, Nat.reduceAdd, Nat.zero_add]
  by_cases h23 : (env.reply (w.trace.length + 23)).result = VK_SUCCESS
  case neg =>
    simp only [h23, if_false, List.length_append, List.length_cons, List.length_nil, List.append_assoc, List.cons_append, List.nil_append, Nat.add_assoc, Nat.reduceAdd, Nat.zero_add]
    simp [Res.world, Res.returned, created_buffers, allocated_memories, destroyed_buffers, freed_memories, *]
  simp only [h23, if_true, List.length_append, List.length_cons, List.length_nil, List.append_assoc, List.cons_append, List.nil_append, Nat.add_assoc, Nat.reduceAdd, Nat.zero_add]
  by_cases hcb : (env.reply (w.trace.length + 22)).handle = VK_NULL_HANDLE
  case pos =>
    simp only [hcb, if_true]
    simp [Res.world, Res.returned, created_buffers, allocated_memories, destroyed_buffers, freed_memories, *]
  simp only [hcb, if_false, List.length_append, List.length_cons, List.length_nil, List.append_assoc, List.cons_append, List.nil_append, Nat.add_assoc, Nat.reduceAdd, Nat.zero_add]
  by_cases h26 : (env.reply (w.trace.length + 26)).result = VK_SUCCESS
  case neg =>
    simp only [h26, if_false, List.length_append, List.length_cons, List.length_nil, List.append_assoc, List.cons_append, List.nil_append, Nat.add_assoc, Nat.reduceAdd, Nat.zero_add]
    simp [Res.world, Res.returned, created_buffers, allocated_memories, destroyed_buffers, freed_memories, *]
  simp only [h26, if_true, List.length_append, List.length_cons, List.length_nil, List.append_assoc, List.cons_append, List.nil_append, Nat.add_assoc, Nat.reduceAdd, Nat.zero_add]
  by_cases h27 : (env.reply (w.trace.length + 27)).result = VK_SUCCESS
  case neg =>
    simp only [h27, if_false, List.length_append, List.length_cons, List.length_nil, List.append_assoc, List.cons_append, List.nil_append, Nat.add_assoc, Nat.reduceAdd, Nat.zero_add]
    simp [Res.world, Res.returned, created_buffers, allocated_memories, destroyed_buffers, freed_memories, *]
  simp only [h27, if_true, List.length_append, List.length_cons, List.length_nil, List.append_assoc, List.cons_append, List.nil_append, Nat.add_assoc, Nat.reduceAdd, Nat.zero_add]
  by_cases h28 : (env.reply (w.trace.length + 28)).result = VK_SUCCESS
  case neg =>
    simp only [h28, if_false, List.length_append, List.length_cons, List.length_nil, List.append_assoc, List.cons_append, List.nil_append, Nat.add_assoc, Nat.reduceAdd, Nat.zero_add]
    simp [Res.world, Res.returned, created_buffers, allocated_memories, destroyed_buffers, freed_memories, *]
  simp only [h28, if_true, List.length_append, List.length_cons, List.length_nil, List.append_assoc, List.cons_append, List.nil_append, Nat.add_assoc, Nat.reduceAdd, Nat.zero_add]
  by_cases h29 : (env.reply (w.trace.length + 29)).result = VK_SUCCESS
  case neg =>
    simp only [h29, if_false, List.length_append, List.length_cons, List.length_nil, List.append_assoc, List.cons_append, List.nil_append, Nat.add_assoc, Nat.reduceAdd, Nat.zero_add]
    simp [Res.world, Res.returned, created_buffers, allocated_memories, destroyed_buffers, freed_memories, *]
  simp only [h29, if_true, List.length_append, List.length_cons, List.length_nil, List.append_assoc, List.cons_append, List.nil_append, Nat.add_assoc, Nat.reduceAdd, Nat.zero_add]
  refine ⟨fun _ => ⟨⟨(env.reply (w.trace.length + 2)).handle, (env.reply w.trace.length).handle⟩,
    ⟨(env.reply (w.trace.length + 9)).handle, (env.reply (w.trace.length + 7)).handle⟩, ?_⟩, ?_⟩
  all_goals simp [Res.world, Res.returned, created_buffers, allocated_memories, destroyed_buffers, freed_memories, *]

theorem create_vertex_buffers_releases_witness :
    (create_vertex_buffers vertices sizeof_vertices indices sizeof_indices sample_env
      sample_world).returned = true ∧
    (∃ vertex_staging index_staging : buffer,
        created_buffers
          ((create_vertex_buffers vertices sizeof_vertices indices sizeof_indices sample_env sample_world).world.trace.drop
            sample_world.trace.length) =
          [(vertex_staging.buf, VK_BUFFER_USAGE_TRANSFER_SRC_BIT),
           (index_staging.buf, VK_BUFFER_USAGE_TRANSFER_SRC_BIT),
           ((create_vertex_buffers vertices sizeof_vertices indices sizeof_indices sample_env sample_world).world.vertex_buffer.buf,
             VK_BUFFER_USAGE_VERTEX_BUFFER_BIT ||| VK_BUFFER_USAGE_TRANSFER_DST_BIT),
           ((create_vertex_buffers vertices sizeof_vertices indices sizeof_indices sample_env sample_world).world.index_buffer.buf,
             VK_BUFFER_USAGE_INDEX_BUFFER_BIT ||| VK_BUFFER_USAGE_TRANSFER_DST_BIT)] ∧
        allocated_memories
          ((create_vertex_buffers vertices sizeof_vertices indices sizeof_indices sample_env sample_world).world.trace.drop
            sample_world.trace.length) =
          [vertex_staging.mem, index_staging.mem,
           (create_vertex_buffers vertices sizeof_vertices indices sizeof_indices sample_env sample_world).world.vertex_buffer.mem,
           (create_vertex_buffers vertices sizeof_vertices indices sizeof_indices sample_env sample_world).world.index_buffer.mem] ∧
        destroyed_buffers
          ((create_vertex_buffers vertices sizeof_vertices indices sizeof_indices sample_env sample_world).world.trace.drop
            sample_world.trace.length) = [vertex_staging.buf, index_staging.buf] ∧
        freed_memories
          ((create_vertex_buffers vertices sizeof_vertices indices sizeof_indices sample_env sample_world).world.trace.drop
            sample_world.trace.length) = [vertex_staging.mem, index_staging.mem]) :=
  have h : (create_vertex_buffers vertices sizeof_vertices indices sizeof_indices sample_env
      sample_world).returned = true := by rfl
  ⟨h, (create_vertex_buffers_releases vertices sizeof_vertices indices sizeof_indices
    sample_env sample_world).1 h⟩

/-! ## The sizing query -/

set_option maxHeartbeats 4000000 in
/-- C14: on every run of `prepare_vulkan` that returns, the trace ends with the
address reads of `vertex_buffer.buf` and `index_buffer.buf` (the buffers
created with the vertex and index usages), the lookup of the sizing function,
and one sizing query with exactly these inputs: device build type; a top-level
build descriptor with the prefer-fast-trace flag and geometryCount 1; one
geometry of triangle type with the opaque flag, vertex format 3x32-bit float,
vertex stride `sizeof(Vertex)` = 24, maxVertex 2, index type 32-bit unsigned,
vertex and index addresses the two addresses just read; and the
maximum-primitive-count array `[0]`. No other sizing query is made. -/
theorem prepare_vulkan_sizing_query (env : Env) (w : World)
    (hret : (prepare_vulkan env w).returned = true) :
    sizeof_Vertex = 24 ∧
    ∃ (earlier : List Event) (vertex_created index_created : Reply)
      (vertex_address index_address proc sizes : Reply),
      (prepare_vulkan env w).world.trace = w.trace ++ earlier ++
        [⟨.vkGetBufferDeviceAddress (prepare_vulkan env w).world.vertex_buffer.buf,
            vertex_address⟩,
         ⟨.vkGetBufferDeviceAddress (prepare_vulkan env w).world.index_buffer.buf,
            index_address⟩,
         ⟨.vkGetInstanceProcAddr "vkGetAccelerationStructureBuildSizesKHR", proc⟩,
         ⟨.getAccelerationStructureBuildSizes VK_ACCELERATION_STRUCTURE_BUILD_TYPE_DEVICE_KHR
            { type := VK_ACCELERATION_STRUCTURE_TYPE_TOP_LEVEL_KHR,
              flags := VK_BUILD_ACCELERATION_STRUCTURE_PREFER_FAST_TRACE_BIT_KHR,
              mode := 0,
              srcAccelerationStructure := VK_NULL_HANDLE,
              dstAccelerationStructure := VK_NULL_HANDLE,
              geometryCount := 1,
              pGeometries :=
                [{ geometryType := VK_GEOMETRY_TYPE_TRIANGLES_KHR,
                   triangles :=
                     { vertexFormat := VK_FORMAT_R32G32B32_SFLOAT,
                       vertexData := vertex_address.handle,
                       vertexStride := sizeof_Vertex,
                       maxVertex := 2,
                       indexType := VK_INDEX_TYPE_UINT32,
                       indexData := index_address.handle,
                       transformData := 0 },
                   flags := VK_GEOMETRY_OPAQUE_BIT_KHR }],
              ppGeometries := 0,
              scratchData := 0 } [0], sizes⟩] ∧
      (⟨.vkCreateBuffer env.sizeof_pointer
          (VK_BUFFER_USAGE_VERTEX_BUFFER_BIT ||| VK_BUFFER_USAGE_TRANSFER_DST_BIT),
          vertex_created⟩ : Event) ∈ earlier ∧
      vertex_created.handle = (prepare_vulkan env w).world.vertex_buffer.buf ∧
      (⟨.vkCreateBuffer env.sizeof_pointer
          (VK_BUFFER_USAGE_INDEX_BUFFER_BIT ||| VK_BUFFER_USAGE_TRANSFER_DST_BIT),
          index_created⟩ : Event) ∈ earlier ∧
      index_created.handle = (prepare_vulkan env w).world.index_buffer.buf ∧
      (∀ e ∈ earlier, ∀ (buildType : Nat)
          (buildInfo : VkAccelerationStructureBuildGeometryInfoKHR) (counts : List Nat),
        e.call ≠ .getAccelerationStructureBuildSizes buildType buildInfo counts) := by
  refine ⟨rfl, ?_⟩
  have hup := create_vertex_buffers_returned vertices sizeof_vertices indices sizeof_indices env w
  revert hret
  unfold prepare_vulkan
  simp only [run_bind]
  cases hc : create_vertex_buffers vertices sizeof_vertices indices sizeof_indices env w with
  | fatal f w1 => simp [Res.returned]
  | ok u w1 =>
    rw [hc] at hup
    obtain ⟨i1, i8, i15, i19, _, _, _, _, _, _, hw1⟩ := hup rfl
    simp only [Res.world] at hw1
    subst hw1
    simp only [run_get_world, run_native, run_pure, List.length_append,
      List.append_assoc, upload_events_length, Nat.add_assoc, Nat.reduceAdd]
    by_cases hproc : (env.reply (w.trace.length + 38)).handle = 0
    · simp [hproc, Res.returned, run_stop]
    · simp only [hproc, if_false, run_bind, run_native, run_pure, List.length_append,
        List.append_assoc, upload_events_length, Nat.add_assoc, Nat.reduceAdd, List.length_cons,
        List.length_nil, List.cons_append, List.nil_append]
      intro _
      refine ⟨upload_events env w.trace.length w.command_pool w.queue vertices indices
          i1 i8 i15 i19,
        env.reply (w.trace.length + 14), env.reply (w.trace.length + 18),
        env.reply (w.trace.length + 36), env.reply (w.trace.length + 37),
        env.reply (w.trace.length + 38), env.reply (w.trace.length + 39), ?_, ?_, ?_, ?_, ?_, ?_⟩
      all_goals simp [Res.world, upload_events]

theorem prepare_vulkan_sizing_query_witness :
    (prepare_vulkan sample_env sample_world).returned = true ∧
    sizeof_Vertex = 24 ∧
    ∃ (earlier : List Event) (vertex_created index_created : Reply)
      (vertex_address index_address proc sizes : Reply),
      (prepare_vulkan sample_env sample_world).world.trace = sample_world.trace ++ earlier ++
        [⟨.vkGetBufferDeviceAddress (prepare_vulkan sample_env sample_world).world.vertex_buffer.buf,
            vertex_address⟩,
         ⟨.vkGetBufferDeviceAddress (prepare_vulkan sample_env sample_world).world.index_buffer.buf,
            index_address⟩,
         ⟨.vkGetInstanceProcAddr "vkGetAccelerationStructureBuildSizesKHR", proc⟩,
         ⟨.getAccelerationStructureBuildSizes VK_ACCELERATION_STRUCTURE_BUILD_TYPE_DEVICE_KHR
            { type := VK_ACCELERATION_STRUCTURE_TYPE_TOP_LEVEL_KHR,
              flags := VK_BUILD_ACCELERATION_STRUCTURE_PREFER_FAST_TRACE_BIT_KHR,
              mode := 0,
              srcAccelerationStructure := VK_NULL_HANDLE,
              dstAccelerationStructure := VK_NULL_HANDLE,
              geometryCount := 1,
              pGeometries :=
                [{ geometryType := VK_GEOMETRY_TYPE_TRIANGLES_KHR,
                   triangles :=
                     { vertexFormat := VK_FORMAT_R32G32B32_SFLOAT,
                       vertexData := vertex_address.handle,
                       vertexStride := sizeof_Vertex,
                       maxVertex := 2,
                       indexType := VK_INDEX_TYPE_UINT32,
                       indexData := index_address.handle,
                       transformData := 0 },
                   flags := VK_GEOMETRY_OPAQUE_BIT_KHR }],
              ppGeometries := 0,
              scratchData := 0 } [0], sizes⟩] ∧
      (⟨.vkCreateBuffer sample_env.sizeof_pointer
          (VK_BUFFER_USAGE_VERTEX_BUFFER_BIT ||| VK_BUFFER_USAGE_TRANSFER_DST_BIT),
          vertex_created⟩ : Event) ∈ earlier ∧
      vertex_created.handle = (prepare_vulkan sample_env sample_world).world.vertex_buffer.buf ∧
      (⟨.vkCreateBuffer sample_env.sizeof_pointer
          (VK_BUFFER_USAGE_INDEX_BUFFER_BIT ||| VK_BUFFER_USAGE_TRANSFER_DST_BIT),
          index_created⟩ : Event) ∈ earlier ∧
      index_created.handle = (prepare_vulkan sample_env sample_world).world.index_buffer.buf ∧
      (∀ e ∈ earlier, ∀ (buildType : Nat)
          (buildInfo : VkAccelerationStructureBuildGeometryInfoKHR) (counts : List Nat),
        e.call ≠ .getAccelerationStructureBuildSizes buildType buildInfo counts) :=
  have h : (prepare_vulkan sample_env sample_world).returned = true := by rfl
  ⟨h, prepare_vulkan_sizing_query sample_env sample_world h⟩

/-! ## The logical device -/

/-- C15: `create_device` calls `vkCreateDevice` with exactly one queue-create
entry (flags 0, the family `preferred_queue_family`, queueCount 1, priority
1.0) and exactly the four extensions swapchain, acceleration-structure,
ray-tracing-pipeline and ray-query; it then retrieves queue 0 of that family and
creates one command pool with flags 0 for that family. It returns exactly when
both creations report success, and otherwise ends with `exit(EXIT_FAILURE)`. -/
theorem create_device_requests (env : Env) (w : World) :
    ((create_device env w).returned = true ↔
      (env.reply w.trace.length).result = VK_SUCCESS ∧
      (env.reply (w.trace.length + 2)).result = VK_SUCCESS) ∧
    ((create_device env w).returned = true →
      (create_device env w).world.trace = w.trace ++
        [⟨.vkCreateDevice w.physical_device
            [{ flags := 0, queueFamilyIndex := w.preferred_queue_family, queueCount := 1,
               pQueuePriorities := [1] }]
            [DeviceExtension.VK_KHR_SWAPCHAIN_EXTENSION_NAME,
             DeviceExtension.VK_KHR_ACCELERATION_STRUCTURE_EXTENSION_NAME,
             DeviceExtension.VK_KHR_RAY_TRACING_PIPELINE_EXTENSION_NAME,
             DeviceExtension.VK_KHR_RAY_QUERY_EXTENSION_NAME], env.reply w.trace.length⟩,
         ⟨.vkGetDeviceQueue (env.reply w.trace.length).handle w.preferred_queue_family 0,
            env.reply (w.trace.length + 1)⟩,
         ⟨.vkCreateCommandPool 0 w.preferred_queue_family, env.reply (w.trace.length + 2)⟩] ∧
      (create_device env w).world.device = (env.reply w.trace.length).handle ∧
      (create_device env w).world.queue = (env.reply (w.trace.length + 1)).handle ∧
      (create_device env w).world.command_pool = (env.reply (w.trace.length + 2)).handle) ∧
    ((create_device env w).returned = false →
      ∃ w1 : World, create_device env w = Res.fatal Fatal.exit_failure w1) ∧
    (∀ e ∈ (create_device env w).world.trace.drop w.trace.length,
      (∀ (pd : Nat) (queues : List VkDeviceQueueCreateInfo) (exts : List DeviceExtension),
        e.call = .vkCreateDevice pd queues exts →
          queues = [{ flags := 0, queueFamilyIndex := w.preferred_queue_family, queueCount := 1,
                      pQueuePriorities := [1] }] ∧
          exts = [DeviceExtension.VK_KHR_SWAPCHAIN_EXTENSION_NAME,
                  DeviceExtension.VK_KHR_ACCELERATION_STRUCTURE_EXTENSION_NAME,
                  DeviceExtension.VK_KHR_RAY_TRACING_PIPELINE_EXTENSION_NAME,
                  DeviceExtension.VK_KHR_RAY_QUERY_EXTENSION_NAME]) ∧
      (∀ device family index : Nat, e.call = .vkGetDeviceQueue device family index →
        family = w.preferred_queue_family ∧ index = 0) ∧
      (∀ flags family : Nat, e.call = .vkCreateCommandPool flags family →
        flags = 0 ∧ family = w.preferred_queue_family)) := by
  unfold create_device
  simp only [run_bind, run_get_world, run_modify_world, run_VK_CHECK_native, run_native,
    run_pure, List.length_append, List.length_cons, List.length_nil, List.append_assoc,
    List.cons_append, List.nil_append, Nat.add_assoc, Nat.reduceAdd, Nat.zero_add]
  by_cases h0 : (env.reply w.trace.length).result = VK_SUCCESS
  · simp only [h0, if_true, List.length_append, List.length_cons, List.length_nil,
      List.append_assoc, List.cons_append, List.nil_append, Nat.add_assoc, Nat.reduceAdd]
    by_cases h2 : (env.reply (w.trace.length + 2)).result = VK_SUCCESS
    · simp [h2, Res.returned, Res.world]
    · simp [h2, Res.returned, Res.world]
  · simp [h0, Res.returned, Res.world]

theorem create_device_requests_witness :
    (create_device sample_env (World.initial false)).returned = true ∧
    ((create_device sample_env (World.initial false)).world.trace.map Event.call =
      [.vkCreateDevice 0
          [{ flags := 0, queueFamilyIndex := NO_QUEUE_FAMILY, queueCount := 1,
             pQueuePriorities := [1] }]
          [DeviceExtension.VK_KHR_SWAPCHAIN_EXTENSION_NAME,
           DeviceExtension.VK_KHR_ACCELERATION_STRUCTURE_EXTENSION_NAME,
           DeviceExtension.VK_KHR_RAY_TRACING_PIPELINE_EXTENSION_NAME,
           DeviceExtension.VK_KHR_RAY_QUERY_EXTENSION_NAME],
       .vkGetDeviceQueue 100 NO_QUEUE_FAMILY 0,
       .vkCreateCommandPool 0 NO_QUEUE_FAMILY]) :=
  have h := create_device_requests sample_env (World.initial false)
  have hret : (create_device sample_env (World.initial false)).returned = true :=
    h.1.2 ⟨by decide, by decide⟩
  ⟨hret, by rw [(h.2.1 hret).1]; rfl⟩

/-! ## The choice of the physical device -/

/-- When both enumeration calls report success and at least one device is
enumerated, `choose_physical_device` returns with element 0 of the enumeration
selected, having asked for `min(32, count)` entries. -/
theorem choose_physical_device_selects_first (env : Env) (w : World) (first : Nat)
    (rest : List Nat) (hdev : env.physical_devices = first :: rest)
    (hlen : env.physical_devices.length < UINT32_MODULUS)
    (h0 : (env.reply w.trace.length).result = VK_SUCCESS)
    (h1 : (env.reply (w.trace.length + 1)).result = VK_SUCCESS) :
    (choose_physical_device env w).returned = true ∧
    (choose_physical_device env w).world.physical_device = first ∧
    (choose_physical_device env w).world.trace = w.trace ++
      [⟨.vkEnumeratePhysicalDevices none, env.reply w.trace.length⟩,
       ⟨.vkEnumeratePhysicalDevices (some (min 32 env.physical_devices.length)),
          env.reply (w.trace.length + 1)⟩] := by
  unfold choose_physical_device
  simp only [run_bind, run_get_env, run_modify_world, run_VK_CHECK_native, run_pure, h0, h1,
    if_true, List.length_append, List.length_cons, List.length_nil, Nat.mod_eq_of_lt hlen]
  refine ⟨rfl, ?_, by simp [Res.world]⟩
  simp only [Res.world, hdev, List.length_cons]
  have hmin : min 32 (rest.length + 1) = (min 31 rest.length) + 1 := by omega
  rw [hmin, List.take_succ_cons]
  rfl

/-- C16 with 33 devices enumerated and a conformant driver: the count query
succeeds, the call with the array of 32 entries reports `VK_INCOMPLETE`, the
check treats that status as a failure, and the run ends fatally with no device
selected (`physical_device` keeps its initial null handle, element 0 is 1000). -/
theorem choose_physical_device_exits_with_33_devices :
    many_devices_env.physical_devices.length = 33 ∧
    many_devices_env.physical_devices.head? = some 1000 ∧
    (choose_physical_device many_devices_env (World.initial false)).returned = false ∧
    (choose_physical_device many_devices_env (World.initial false)).world.trace.map
        (fun e => (e.call, e.reply.result)) =
      [(.vkEnumeratePhysicalDevices none, VK_SUCCESS),
       (.vkEnumeratePhysicalDevices (some 32), VK_INCOMPLETE),
       (.vkEnumeratePhysicalDevices (some 32), VK_INCOMPLETE)] ∧
    (choose_physical_device many_devices_env (World.initial false)).world.physical_device =
      VK_NULL_HANDLE := by
  decide

/-! ## Monotonicity of the resolver -/

/-- C17: over a table with at most 32 entries, when the resolver returns `i`
for a mask and a flag set, it also succeeds for every mask that contains all
bits of the first and every flag set contained in the first, and the index it
then returns is at most `i`. -/
theorem getMemoryTypeIndex_monotone (mp : VkPhysicalDeviceMemoryProperties)
    (type_bits properties wider_bits fewer_properties i : Nat)
    (hcount : mp.memoryTypeCount ≤ 32)
    (hret : getMemoryTypeIndex mp type_bits properties = .ok i)
    (hbits : ∀ b : Nat, type_bits.testBit b = true → wider_bits.testBit b = true)
    (hprops : ∀ b : Nat, fewer_properties.testBit b = true → properties.testBit b = true) :
    ∃ j : Nat, getMemoryTypeIndex mp wider_bits fewer_properties = .ok j ∧ j ≤ i := by
  obtain ⟨hi, hbit, hflags⟩ := getMemoryTypeIndex_ok_spec mp type_bits properties i hcount hret
  have hmatch : MemoryTypeMatches mp wider_bits fewer_properties i :=
    ⟨hbits i hbit, fun b hb => hflags b (hprops b hb)⟩
  have hspec := getMemoryTypeIndex_loop_spec mp wider_bits fewer_properties
    mp.memoryTypeCount 0 (by omega)
  unfold getMemoryTypeIndex
  revert hspec
  cases getMemoryTypeIndex_loop mp wider_bits fewer_properties mp.memoryTypeCount 0 with
  | ok k =>
    rintro ⟨_, _, _, h4⟩
    refine ⟨k, rfl, ?_⟩
    by_contra hlt
    exact h4 i (Nat.zero_le i) (by omega) hmatch
  | error f =>
    rintro ⟨_, h2⟩
    exact absurd hmatch (h2 i (Nat.zero_le i) (by omega))

theorem getMemoryTypeIndex_monotone_witness :
    sample_memory_properties.memoryTypeCount ≤ 32 ∧
    getMemoryTypeIndex sample_memory_properties 4 6 = .ok 2 ∧
    (∀ b : Nat, (4 : Nat).testBit b = true → (6 : Nat).testBit b = true) ∧
    (∀ b : Nat, (2 : Nat).testBit b = true → (6 : Nat).testBit b = true) ∧
    ∃ j : Nat, getMemoryTypeIndex sample_memory_properties 6 2 = .ok j ∧ j ≤ 2 :=
  have h1 : sample_memory_properties.memoryTypeCount ≤ 32 := by decide
  have h2 : getMemoryTypeIndex sample_memory_properties 4 6 = .ok 2 := rfl
  have h3 : ∀ b : Nat, (4 : Nat).testBit b = true → (6 : Nat).testBit b = true :=
    (flags_subset_iff 6 4).1 (by decide)
  have h4 : ∀ b : Nat, (2 : Nat).testBit b = true → (6 : Nat).testBit b = true :=
    (flags_subset_iff 6 2).1 (by decide)
  ⟨h1, h2, h3, h4, getMemoryTypeIndex_monotone sample_memory_properties 4 6 6 2 2 h1 h2 h3 h4⟩

end VulkanRayTracing
